import Mathlib

/-!
Verification development for the Bangladesh multi-hazard disaster risk
simulation.  Each Python model that the checked properties touch is embedded
shallowly: pure functions over `ℚ` (Python floats are dyadic rationals, and all
arithmetic in these code paths is field arithmetic, `min`/`max` and `int`
truncation) and over `ℝ` where the source applies transcendental functions
(`log`, `exp`, `sqrt`, non-integer powers).  Stochastic calls (`scipy.stats
…​.rvs()`) draw from the shared global generator; that generator is embedded as
an explicit stream of uniform variates threaded through the computation.
Fallible operations (Python division, out-of-range indexing) return `Except`.
-/

namespace BDSim

/-- Python `int(x)` on a rational: truncation toward zero. -/
def pyIntQ (x : ℚ) : ℤ := if 0 ≤ x then ⌊x⌋ else -⌊-x⌋

/-- Python `int(x)` on a real: truncation toward zero. -/
noncomputable def pyIntR (x : ℝ) : ℤ := if 0 ≤ x then ⌊x⌋ else -⌊-x⌋

/-- Errors raised by the embedded Python fragments. -/
inductive PyError where
  | zeroDivision
  | indexError
deriving DecidableEq, Repr

/-- Python `a / b`, which raises `ZeroDivisionError` when `b == 0`. -/
def pydiv (a b : ℚ) : Except PyError ℚ :=
  if b = 0 then Except.error PyError.zeroDivision else Except.ok (a / b)

/- ============================================================
   ClimateChangeModel  (src/src/models/climate_change_model.py)
   ============================================================ -/

/-- The per-decade climate parameter bundle of one scenario table entry
(`self.scenarios[name][param][decade]`); `precipitation_change` is the
four-season list [pre-monsoon, monsoon, post-monsoon, winter]. -/
structure ClimateParams where
  temperature_increase : ℚ
  precipitation_change : List ℚ
  sea_level_rise : ℚ
  cyclone_intensity_factor : ℚ
  drought_frequency_factor : ℚ
  extreme_rainfall_factor : ℚ
deriving DecidableEq, Repr

def rcp45_2030 : ClimateParams :=
  { temperature_increase := 0.8
    precipitation_change := [0.05, 0.08, 0.04, -0.02]
    sea_level_rise := 0.12
    cyclone_intensity_factor := 0.05
    drought_frequency_factor := 0.10
    extreme_rainfall_factor := 0.07 }

def rcp45_2040 : ClimateParams :=
  { temperature_increase := 1.1
    precipitation_change := [0.08, 0.12, 0.06, -0.03]
    sea_level_rise := 0.22
    cyclone_intensity_factor := 0.08
    drought_frequency_factor := 0.15
    extreme_rainfall_factor := 0.12 }

def rcp45_2050 : ClimateParams :=
  { temperature_increase := 1.4
    precipitation_change := [0.10, 0.15, 0.08, -0.05]
    sea_level_rise := 0.32
    cyclone_intensity_factor := 0.12
    drought_frequency_factor := 0.20
    extreme_rainfall_factor := 0.18 }

def rcp85_2030 : ClimateParams :=
  { temperature_increase := 1.0
    precipitation_change := [0.07, 0.11, 0.06, -0.04]
    sea_level_rise := 0.15
    cyclone_intensity_factor := 0.08
    drought_frequency_factor := 0.15
    extreme_rainfall_factor := 0.10 }

def rcp85_2040 : ClimateParams :=
  { temperature_increase := 1.6
    precipitation_change := [0.12, 0.18, 0.09, -0.08]
    sea_level_rise := 0.30
    cyclone_intensity_factor := 0.15
    drought_frequency_factor := 0.25
    extreme_rainfall_factor := 0.20 }

def rcp85_2050 : ClimateParams :=
  { temperature_increase := 2.2
    precipitation_change := [0.18, 0.25, 0.12, -0.12]
    sea_level_rise := 0.45
    cyclone_intensity_factor := 0.25
    drought_frequency_factor := 0.35
    extreme_rainfall_factor := 0.30 }

def rcp26_2030 : ClimateParams :=
  { temperature_increase := 0.6
    precipitation_change := [0.03, 0.05, 0.02, -0.01]
    sea_level_rise := 0.10
    cyclone_intensity_factor := 0.03
    drought_frequency_factor := 0.05
    extreme_rainfall_factor := 0.05 }

def rcp26_2040 : ClimateParams :=
  { temperature_increase := 0.8
    precipitation_change := [0.05, 0.07, 0.03, -0.02]
    sea_level_rise := 0.18
    cyclone_intensity_factor := 0.05
    drought_frequency_factor := 0.08
    extreme_rainfall_factor := 0.07 }

def rcp26_2050 : ClimateParams :=
  { temperature_increase := 0.9
    precipitation_change := [0.06, 0.08, 0.04, -0.02]
    sea_level_rise := 0.24
    cyclone_intensity_factor := 0.07
    drought_frequency_factor := 0.10
    extreme_rainfall_factor := 0.09 }

/-- The zero-valued 2025 baseline used by the `decade == 2030` interpolation
branch (`base_temp_increase = 0`, `base_precip = [0, 0, 0, 0]`, …). -/
def baseline2025 : ClimateParams :=
  { temperature_increase := 0
    precipitation_change := [0, 0, 0, 0]
    sea_level_rise := 0
    cyclone_intensity_factor := 0
    drought_frequency_factor := 0
    extreme_rainfall_factor := 0 }

/-- Source `self.scenarios` keyed by pathway name: the (2030, 2040, 2050) anchors. -/
def scenarioTable (s : String) : Option (ClimateParams × ClimateParams × ClimateParams) :=
  if s = "RCP4.5" then some (rcp45_2030, rcp45_2040, rcp45_2050)
  else if s = "RCP8.5" then some (rcp85_2030, rcp85_2040, rcp85_2050)
  else if s = "RCP2.6" then some (rcp26_2030, rcp26_2040, rcp26_2050)
  else none

/-- Source `if scenario not in self.scenarios: scenario = 'RCP4.5'` -/
def resolveScenario (s : String) : ClimateParams × ClimateParams × ClimateParams :=
  match scenarioTable s with
  | some t => t
  | none => (rcp45_2030, rcp45_2040, rcp45_2050)

/-- Linear blend `prev + (decade - prev) * interpolation_factor`. -/
def lerpQ (a b f : ℚ) : ℚ := a + (b - a) * f

/-- The field-by-field interpolation `get_annual_climate_parameters` performs
between two anchor bundles (precipitation via the `zip` comprehension). -/
def lerpParams (p q : ClimateParams) (f : ℚ) : ClimateParams :=
  { temperature_increase := lerpQ p.temperature_increase q.temperature_increase f
    precipitation_change :=
      List.zipWith (fun a b => lerpQ a b f) p.precipitation_change q.precipitation_change
    sea_level_rise := lerpQ p.sea_level_rise q.sea_level_rise f
    cyclone_intensity_factor := lerpQ p.cyclone_intensity_factor q.cyclone_intensity_factor f
    drought_frequency_factor := lerpQ p.drought_frequency_factor q.drought_frequency_factor f
    extreme_rainfall_factor := lerpQ p.extreme_rainfall_factor q.extreme_rainfall_factor f }

/-- Source `ClimateChangeModel.get_annual_climate_parameters(year, scenario)`.
The decade / interpolation-factor selection is exactly the source's: the
factor is `(year - 2025) / 5` up to 2030, `(year - 2030) / 10` up to 2040 and
`(year - 2040) / 10` beyond — it is *not* clamped to `[0, 1]`. -/
def getAnnualClimateParameters (year : ℤ) (scenario : String) : ClimateParams :=
  let t := resolveScenario scenario
  if year ≤ 2030 then
    lerpParams baseline2025 t.1 ((year - 2025 : ℤ) / (5 : ℚ))
  else if year ≤ 2040 then
    lerpParams t.1 t.2.1 ((year - 2030 : ℤ) / (10 : ℚ))
  else
    lerpParams t.2.1 t.2.2 ((year - 2040 : ℤ) / (10 : ℚ))

/-- Regional sensitivity row of `self.regional_sensitivity`. -/
structure RegionSensitivity where
  sea_level_rise : ℚ
  cyclone : ℚ
  salinity : ℚ
  flood : ℚ
  drought : ℚ
deriving DecidableEq, Repr

def sensitivityTable (region : String) : Option RegionSensitivity :=
  if region = "coastal" then some ⟨1.0, 1.0, 1.0, 0.7, 0.5⟩
  else if region = "floodplain" then some ⟨0.3, 0.6, 0.5, 1.0, 0.7⟩
  else if region = "haor_basin" then some ⟨0.1, 0.4, 0.2, 0.9, 0.5⟩
  else if region = "barind_tract" then some ⟨0.0, 0.2, 0.1, 0.3, 1.0⟩
  else if region = "hill_tracts" then some ⟨0.0, 0.3, 0.0, 0.4, 0.7⟩
  else if region = "urban" then some ⟨0.5, 0.7, 0.3, 0.8, 0.6⟩
  else none

/-- Source `self.regional_sensitivity.get(region, self.regional_sensitivity['floodplain'])` -/
def regionFactors (region : String) : RegionSensitivity :=
  (sensitivityTable region).getD ⟨0.3, 0.6, 0.5, 1.0, 0.7⟩

/-- The effects dictionary returned by `apply_climate_scenarios`; a key absent
from the Python dict is `none`. -/
structure ClimateEffects where
  intensity_change : Option ℚ := none
  frequency_change : Option ℚ := none
  duration_change : Option ℚ := none
  surge_amplification : Option ℚ := none
  inland_intrusion_km : Option ℚ := none
deriving DecidableEq, Repr

/-- Decade bucket of `apply_climate_scenarios` (no interpolation there). -/
def decadeAnchor (year : ℤ) (t : ClimateParams × ClimateParams × ClimateParams) :
    ClimateParams :=
  if year ≤ 2030 then t.1 else if year ≤ 2040 then t.2.1 else t.2.2

/-- The monsoon entry `precipitation_change[decade][1]`. -/
def monsoonChange (p : ClimateParams) : ℚ := p.precipitation_change.getD 1 0

/-- The winter entry `precipitation_change[decade][3]`. -/
def winterChange (p : ClimateParams) : ℚ := p.precipitation_change.getD 3 0

/-- Source `ClimateChangeModel.apply_climate_scenarios(year, scenario, region,
hazard_type)`, branch for branch. -/
def applyClimateScenarios (year : ℤ) (scenario region hazard_type : String) :
    ClimateEffects :=
  let t := resolveScenario scenario
  let p := decadeAnchor year t
  let rf := regionFactors region
  if hazard_type = "flood" then
    let mc := monsoonChange p
    let slr := p.sea_level_rise
    let fs := rf.flood
    let ic := mc * fs
    let ic := if region = "coastal" then ic + slr * 0.5 else ic
    { intensity_change := some ic
      frequency_change := some (p.extreme_rainfall_factor * fs)
      duration_change := some (mc * 0.3) }
  else if hazard_type = "cyclone" then
    let cs := rf.cyclone
    let cif := p.cyclone_intensity_factor
    { intensity_change := some (cif * cs)
      frequency_change := some (cif * 0.5 * cs)
      surge_amplification :=
        if region = "coastal" then some (p.sea_level_rise * 1.5) else none }
  else if hazard_type = "drought" then
    let ti := p.temperature_increase
    let wc := winterChange p
    let ds := rf.drought
    let ic := ti * 0.2 * ds
    let ic := if wc < 0 then ic - wc * ds else ic
    { intensity_change := some ic
      frequency_change := some (p.drought_frequency_factor * ds) }
  else if hazard_type = "landslide" then
    let er := p.extreme_rainfall_factor
    if region = "hill_tracts" then
      { intensity_change := some (er * 0.8), frequency_change := some (er * 1.2) }
    else
      { intensity_change := some 0, frequency_change := some 0 }
  else if hazard_type = "salinity" then
    let slr := p.sea_level_rise
    let ss := rf.salinity
    if region = "coastal" ∨ region = "floodplain" then
      { intensity_change := some (slr * 0.7 * ss)
        inland_intrusion_km := some (slr * 5) }
    else
      { intensity_change := some 0, inland_intrusion_km := some 0 }
  else if hazard_type = "erosion" then
    let mc := monsoonChange p
    let er := p.extreme_rainfall_factor
    if region = "floodplain" ∨ region = "coastal" ∨ region = "haor_basin" then
      { intensity_change := some ((mc + er) * 0.5)
        frequency_change := some (er * 0.3) }
    else
      { intensity_change := some 0, frequency_change := some 0 }
  else
    let ti := p.temperature_increase
    { intensity_change := some (ti * 0.1), frequency_change := some (ti * 0.05) }

/-- The known pathway names of `self.scenarios`. -/
def knownScenarios : List String := ["RCP4.5", "RCP8.5", "RCP2.6"]

/- ============================================================
   HazardModel  (src/src/models/hazard_model.py)
   ============================================================ -/

/-- The shared global pseudo-random generator: an infinite stream of
uniform[0,1) variates plus the position reached so far.  Every
`scipy.stats …​.rvs()` call consumes the next variate.  No function of the
source ever seeds or resets it, so its position carries over from one call
to the next. -/
structure RNG where
  stream : ℕ → ℚ
  pos : ℕ

/-- Consume one uniform variate from the global generator. -/
def RNG.next (g : RNG) : ℚ × RNG :=
  (g.stream g.pos, { stream := g.stream, pos := g.pos + 1 })

/-- Distributional samplers whose numpy implementations have no closed form
(rejection sampling): each `.rvs()` call is modelled as one draw from the
global stream mapped through the distribution's sampling function, which is
kept as a parameter of the embedding. -/
structure Samplers where
  gammaSample : ℚ → ℚ → ℚ → ℝ

/-- Constructor arguments of `HazardModel` that `generate_events` reads. -/
structure HazardModelCfg where
  hazard_type : String
  return_periods : List ℚ
  spatial_patterns : String
  seasonal_profile : String

/-- One generated hazard event (the dict built by `generate_events` plus
`_add_hazard_specific_attributes`); keys that a hazard type does not set are
`none`. -/
structure HazardEvent where
  htype : String
  year : ℤ
  month : ℕ
  return_period : ℚ
  intensity : ℝ
  footprint_type : String
  flood_type : Option String := none
  duration : Option ℝ := none
  depth : Option ℝ := none
  wind_speed : Option ℝ := none
  storm_surge : Option ℝ := none
  track_direction : Option String := none
  rainfall_intensity : Option ℝ := none

/-- Source `annual_prob = 1.0 / return_period * frequency_multiplier` (line 88 of
`hazard_model.py`).  No clamping is applied. -/
def annualProb (return_period frequency_multiplier : ℚ) : ℚ :=
  1 / return_period * frequency_multiplier

/-- Monthly probabilities of `_sample_month_from_profile`. -/
def monthProbs (cfg : HazardModelCfg) : List ℚ :=
  if cfg.hazard_type = "flood" then
    if cfg.seasonal_profile = "monsoon" then
      [0.01, 0.01, 0.02, 0.05, 0.10, 0.20, 0.25, 0.20, 0.10, 0.04, 0.01, 0.01]
    else List.replicate 12 (1 / 12)
  else if cfg.hazard_type = "cyclone" then
    [0.02, 0.03, 0.07, 0.09, 0.14, 0.05, 0.01, 0.01, 0.03, 0.10, 0.12, 0.04]
  else List.replicate 12 (1 / 12)

/-- Inverse-CDF categorical sampling (`rv_discrete(values=…).rvs()`): the
first index whose cumulative probability exceeds the uniform draw. -/
def categoricalIdx : List ℚ → ℕ → ℚ → ℕ
  | [], k0, _ => k0
  | _p :: [], k0, _ => k0
  | p :: q :: rest, k0, u =>
    if u < p then k0 else categoricalIdx (q :: rest) (k0 + 1) (u - p)

/-- Source `_sample_month_from_profile` returns a month in 1..12. -/
def sampleMonth (cfg : HazardModelCfg) (u : ℚ) : ℕ :=
  categoricalIdx (monthProbs cfg) 1 u

/-- Source `_intensity_from_return_period`: `a * ln(return_period) + b` with
hazard-specific coefficients. -/
noncomputable def intensityFromReturnPeriod (hazard_type : String) (rp : ℚ) : ℝ :=
  if hazard_type = "flood" then 0.8 * Real.log rp + 1.0
  else if hazard_type = "cyclone" then 15 * Real.log rp + 120
  else 0.5 * Real.log rp + 1.0

/-- Source `_generate_spatial_footprint` reduced to the footprint's `type` tag (the
attached name lists are fixed constants). -/
def footprintType (cfg : HazardModelCfg) : String :=
  if cfg.spatial_patterns = "riverine" then "riverine"
  else if cfg.spatial_patterns = "coastal" then "coastal"
  else "generic"

/-- Source `track_probability` of the cyclone config, in dict order. -/
def trackProbs : List (String × ℚ) := [("west", 0.40), ("northwest", 0.35), ("north", 0.25)]

/-- Source `_sample_from_dict` on the track-probability dict. -/
def sampleTrack (u : ℚ) : String :=
  (trackProbs.getD (categoricalIdx (trackProbs.map Prod.snd) 0 u) ("west", 0)).1

/-- Source `_add_hazard_specific_attributes`, threading the global generator through
the stochastic attribute draws.  The `geophysical` branch compares
`event['type']` against `'earthquake'`/`'landslide'` while the type is the
literal `'geophysical'`, so it adds nothing. -/
noncomputable def addHazardSpecificAttributes (smp : Samplers) (cfg : HazardModelCfg)
    (ev : HazardEvent) (g : RNG) : HazardEvent × RNG :=
  if cfg.hazard_type = "flood" then
    let ft := if ev.month = 6 ∨ ev.month = 7 ∨ ev.month = 8 ∨ ev.month = 9
      then "riverine" else "flash"
    let (u, g) := g.next
    let dur : ℝ := if ft = "riverine" then smp.gammaSample 5 3 u else smp.gammaSample 2 1 u
    ({ ev with flood_type := some ft, duration := some dur, depth := some ev.intensity }, g)
  else if cfg.hazard_type = "cyclone" then
    let ws := ev.intensity
    let (u1, g) := g.next
    let (u2, g) := g.next
    ({ ev with wind_speed := some ws
               storm_surge := some (0.05 * ws * 1.2)
               track_direction := some (sampleTrack u1)
               rainfall_intensity := some (10 * Real.log ws - 40)
               duration := some (smp.gammaSample 2 12 u2) }, g)
  else (ev, g)

/-- The loop body of `generate_events` over `self.return_periods`: one
occurrence draw per return period; on occurrence, a month draw and the
hazard-specific attribute draws. -/
noncomputable def genForPeriods (smp : Samplers) (cfg : HazardModelCfg) (year : ℤ)
    (intensity_multiplier frequency_multiplier : ℚ) :
    List ℚ → RNG → List HazardEvent × RNG
  | [], g => ([], g)
  | rp :: rest, g =>
    let (u, g) := g.next
    if u < annualProb rp frequency_multiplier then
      let (um, g) := g.next
      let month := sampleMonth cfg um
      let base := intensityFromReturnPeriod cfg.hazard_type rp
      let inten : ℝ := base * (intensity_multiplier : ℚ)
      let ev0 : HazardEvent :=
        { htype := cfg.hazard_type, year := year, month := month
          return_period := rp, intensity := inten, footprint_type := footprintType cfg }
      let (ev, g) := addHazardSpecificAttributes smp cfg ev0 g
      let (evs, g) := genForPeriods smp cfg year intensity_multiplier frequency_multiplier rest g
      (ev :: evs, g)
    else
      genForPeriods smp cfg year intensity_multiplier frequency_multiplier rest g

/-- Source `HazardModel.generate_events(year, climate_effects)`.  There is no seed
argument anywhere in this call chain: all stochastic choices read the shared
global generator `g`. -/
noncomputable def generateEvents (smp : Samplers) (cfg : HazardModelCfg) (year : ℤ)
    (climate_effects : Option ClimateEffects) (g : RNG) : List HazardEvent × RNG :=
  let im : ℚ := 1 + ((climate_effects.bind (·.intensity_change)).getD 0)
  let fm : ℚ := 1 + ((climate_effects.bind (·.frequency_change)).getD 0)
  genForPeriods smp cfg year im fm cfg.return_periods g

/- ============================================================
   ExposureModel.get_exposed_elements
   (src/src/models/exposure_model.py, lines 157-236)
   ============================================================ -/

/-- The four building typology classes of `self.building_types`. -/
inductive BType where
  | RCC
  | semi_pucca
  | kutcha
  | jhupri
deriving DecidableEq, Repr, Fintype

/-- Source `self.building_types` typology fractions set in `__init__`. -/
def buildingFraction : BType → ℚ
  | BType.RCC => 0.15
  | BType.semi_pucca => 0.25
  | BType.kutcha => 0.50
  | BType.jhupri => 0.10

/-- Source `self.critical_facilities` counts set in `__init__`. -/
def criticalFacilities : List (String × ℚ) :=
  [("hospitals", 620), ("primary_schools", 65000), ("secondary_schools", 20300),
   ("power_plants", 143), ("bridges", 4700), ("embankments_km", 12000),
   ("cyclone_shelters", 2500), ("telecom_towers", 35000)]

/-- Source `self.agricultural_data` areas set in `__init__`. -/
def agriculturalData : List (String × ℚ) :=
  [("rice_area_ha", 11000000), ("wheat_area_ha", 350000), ("jute_area_ha", 700000),
   ("vegetable_area_ha", 900000), ("aquaculture_area_ha", 830000)]

def charPrefix : List Char → List Char → Bool
  | [], _ => true
  | _ :: _, [] => false
  | a :: as, b :: bs => a = b && charPrefix as bs

def charInfix (sub : List Char) : List Char → Bool
  | [] => charPrefix sub []
  | c :: cs => charPrefix sub (c :: cs) || charInfix sub cs

/-- Python `sub in s` on strings: substring containment. -/
def strContains (s sub : String) : Bool := charInfix sub.toList s.toList

/-- The hazard footprint dict consumed by `get_exposed_elements`
(`.get('type', 'generic')`, `.get('affected_rivers', [])`,
`.get('affected_coast', [])`). -/
structure Footprint where
  ftype : String := "generic"
  affected_rivers : List String := []
  affected_coast : List String := []

/-- The exposure-ratio computation: sub-region counts normalised by 3 and
clamped to the footprint-type-specific range; 0.1 for generic footprints. -/
def exposureRatio (fp : Footprint) : ℚ :=
  if fp.ftype = "riverine" then
    min (max ((fp.affected_rivers.length : ℚ) / 3) 0.1) 0.5
  else if fp.ftype = "coastal" then
    min (max ((fp.affected_coast.length : ℚ) / 3) 0.1) 0.4
  else 0.1

/-- Per-crop exposure multiplier (`'rice' in crop_type` branch etc.). -/
def cropExposure (crop : String) (r : ℚ) : ℚ :=
  if strContains crop "rice" then r * 1.2
  else if strContains crop "aquaculture" then r * 1.5
  else r * 0.9

/-- Per-admin-unit stock attributes (`admin_gdf['attributes']`); in the source
they are gamma-distributed placeholder draws, hence non-negative reals. -/
structure UnitAttrs where
  unit_populations : List ℚ
  unit_building_counts : List ℚ

/-- Sum over the units selected by `np.random.choice(…, replace=False)`; the
selected subset is modelled by a Boolean mask over the unit list. -/
def maskedSum (mask : List Bool) (xs : List ℚ) : ℚ :=
  (List.zipWith (fun b x => if b then x else 0) mask xs).sum

/-- The dictionary returned by `get_exposed_elements`. -/
structure ExposedElements where
  population : ℚ
  buildings : BType → ℤ
  infrastructure : List (String × ℤ)
  agriculture : List (String × ℤ)
  exposure_ratio : ℚ

/-- Source `ExposureModel.get_exposed_elements(hazard_footprint)` of the module
version: population and building totals over the masked units, per-type
building split, infrastructure at `count * exposure_ratio * 0.8`, crops at
their differential exposure multipliers. -/
def getExposedElements (attrs : UnitAttrs) (fp : Footprint) (mask : List Bool) :
    ExposedElements :=
  let r := exposureRatio fp
  let totalExposedBuildings := maskedSum mask attrs.unit_building_counts
  { population := maskedSum mask attrs.unit_populations
    buildings := fun bt => pyIntQ (totalExposedBuildings * buildingFraction bt)
    infrastructure := criticalFacilities.map (fun kc => (kc.1, pyIntQ (kc.2 * r * 0.8)))
    agriculture := agriculturalData.map (fun ka => (ka.1, pyIntQ (ka.2 * cropExposure ka.1 r)))
    exposure_ratio := r }

/- ============================================================
   ExposureModel.update_exposure
   (src/bangladesh_disaster_simulation.py, lines 420-461)
   ============================================================ -/

/-- The mutable exposure state of the main-script `ExposureModel` that
`update_exposure` rewrites each simulation year. -/
structure ExposureState where
  total_population : ℚ
  urban_population_pct : ℚ
  rcc : ℚ
  semi_pucca : ℚ
  kutcha : ℚ
  jhupri : ℚ
  rice_area_ha : ℚ
  wheat_area_ha : ℚ
  jute_area_ha : ℚ
  vegetable_area_ha : ℚ
  aquaculture_area_ha : ℚ
  hospitals : ℚ
  cyclone_shelters : ℚ
  telecom_towers : ℚ
  econ_agriculture : ℚ
  econ_industry : ℚ
  econ_services : ℚ
deriving DecidableEq, Repr

/-- The `__init__` values of the fields `update_exposure` touches. -/
def initialExposureState : ExposureState :=
  { total_population := 169000000
    urban_population_pct := 0.39
    rcc := 0.15
    semi_pucca := 0.25
    kutcha := 0.50
    jhupri := 0.10
    rice_area_ha := 11000000
    wheat_area_ha := 350000
    jute_area_ha := 700000
    vegetable_area_ha := 900000
    aquaculture_area_ha := 830000
    hospitals := 620
    cyclone_shelters := 2500
    telecom_towers := 35000
    econ_agriculture := 0.12
    econ_industry := 0.33
    econ_services := 0.55 }

/-- Source `ExposureModel.update_exposure(year)`: `years_passed = year - 2025`;
population and crop areas are re-compounded from the *current* state; the
RCC fraction gains `years_passed * 0.003` capped at 0.35 while kutcha and
semi-pucca each lose the full half-increment (the cap does not rebalance
them); jhupri is never touched. -/
def updateExposure (s : ExposureState) (year : ℤ) : ExposureState :=
  let yp : ℤ := year - 2025
  let ypq : ℚ := (yp : ℚ)
  let rcc_increase : ℚ := ypq * 0.003
  let service_increase : ℚ := ypq * 0.002
  { total_population := s.total_population * (1 + 0.01 : ℚ) ^ yp
    urban_population_pct := min (s.urban_population_pct + ypq * 0.005) 0.65
    rcc := min (s.rcc + rcc_increase) 0.35
    semi_pucca := s.semi_pucca - rcc_increase / 2
    kutcha := s.kutcha - rcc_increase / 2
    jhupri := s.jhupri
    rice_area_ha := s.rice_area_ha * (1 - 0.002 : ℚ) ^ yp
    wheat_area_ha := s.wheat_area_ha * (1 - 0.001 : ℚ) ^ yp
    jute_area_ha := s.jute_area_ha * (1 - 0.001 : ℚ) ^ yp
    vegetable_area_ha := s.vegetable_area_ha * (1 - 0.001 : ℚ) ^ yp
    aquaculture_area_ha := s.aquaculture_area_ha * (1 - 0.001 : ℚ) ^ yp
    hospitals := s.hospitals + 10 * ypq
    cyclone_shelters := s.cyclone_shelters + 50 * ypq
    telecom_towers := s.telecom_towers + 1000 * ypq
    econ_agriculture := s.econ_agriculture - service_increase / 2
    econ_industry := s.econ_industry - service_increase / 2
    econ_services := min (s.econ_services + service_increase) 0.65 }

/-- Sum of the four building-type fractions of an exposure state. -/
def btypeSum (s : ExposureState) : ℚ := s.rcc + s.semi_pucca + s.kutcha + s.jhupri

/- ============================================================
   VulnerabilityModel.calculate_damages, building and casualty
   sections (src/bangladesh_disaster_simulation.py, lines 657-742)
   ============================================================ -/

/-- Source `self.building_vulnerability[hazard][btype]['damage_function']`; `none`
when the hazard type has no building vulnerability table.  Powers with
non-integer float exponents are real powers. -/
noncomputable def buildingDamageRatio (hazard_type : String) (bt : BType) (i : ℝ) :
    Option ℝ :=
  if hazard_type = "flood" then some (match bt with
    | BType.RCC => min 0.9 (max 0 (0.1 * i ^ (1.25 : ℝ)))
    | BType.semi_pucca => min 0.95 (max 0 (0.2 * i ^ (1.5 : ℝ)))
    | BType.kutcha => min 1.0 (max 0 (0.3 * i ^ (1.7 : ℝ)))
    | BType.jhupri => min 1.0 (max 0 (0.5 * i ^ (2.0 : ℝ))))
  else if hazard_type = "cyclone" then some (match bt with
    | BType.RCC => min 0.9 (max 0 (if i > 80 then 0.0001 * (i - 80) ^ 2 else 0))
    | BType.semi_pucca => min 0.95 (max 0 (if i > 60 then 0.0002 * (i - 60) ^ 2 else 0))
    | BType.kutcha => min 1.0 (max 0 (if i > 40 then 0.0004 * (i - 40) ^ 2 else 0))
    | BType.jhupri => min 1.0 (max 0 (if i > 30 then 0.0008 * (i - 30) ^ 2 else 0)))
  else if hazard_type = "earthquake" then some (match bt with
    | BType.RCC => min 0.9 (max 0 (1.5 * i ^ (1.8 : ℝ)))
    | BType.semi_pucca => min 0.95 (max 0 (2.0 * i ^ (1.5 : ℝ)))
    | BType.kutcha => min 1.0 (max 0 (2.5 * i ^ (1.3 : ℝ)))
    | BType.jhupri => min 1.0 (max 0 (3.0 * i ^ (1.2 : ℝ))))
  else none

/-- The hazard-event dict as `calculate_damages` reads it; `storm_surge` is
optional because the casualty branch tests `'storm_surge' in hazard_event`. -/
structure HazardEventIn where
  htype : String
  depth : ℝ := 0
  wind_speed : ℝ := 0
  magnitude : ℝ := 0
  intensity : ℝ := 0
  storm_surge : Option ℝ := none
  duration : ℝ := 3

/-- The intensity parameter selected at the top of `calculate_damages`. -/
noncomputable def damageIntensity (ev : HazardEventIn) : ℝ :=
  if ev.htype = "flood" then ev.depth
  else if ev.htype = "cyclone" then ev.wind_speed
  else if ev.htype = "earthquake" then ev.magnitude / 10
  else ev.intensity

/-- One row of `damages['buildings']`. -/
structure BuildingDamage where
  btype : BType
  count : ℤ
  damage_ratio : ℝ
  damaged_count : ℤ

/-- Section 1 of `calculate_damages`: per-type damage ratios and truncated
damaged counts (only for hazards present in the vulnerability table). -/
noncomputable def buildingDamages (ev : HazardEventIn) (buildings : List (BType × ℤ)) :
    List BuildingDamage :=
  (buildings.filterMap fun bc =>
    (buildingDamageRatio ev.htype bc.1 (damageIntensity ev)).map fun dr =>
      { btype := bc.1, count := bc.2, damage_ratio := dr
        damaged_count := pyIntR ((bc.2 : ℝ) * dr) })

/-- The `(fatality_rate, injury_rate, displacement_rate)` triple chosen by the
casualty section for a hazard event with overall damage ratio `odr`. -/
noncomputable def casualtyRates (ev : HazardEventIn) (odr : ℝ) : ℝ × ℝ × ℝ :=
  let i := damageIntensity ev
  if ev.htype = "flood" then
    (0.0001 + 0.001 * i ^ 2, 0.001 + 0.005 * i ^ (1.5 : ℝ), 0.01 + 0.1 * i)
  else if ev.htype = "cyclone" then
    (0.0001 * (i / 100) ^ 2 + (match ev.storm_surge with
      | some s => 0.001 * s ^ 2
      | none => 0),
     0.001 * (i / 80) ^ (1.8 : ℝ),
     0.005 * (i / 60) ^ (1.5 : ℝ))
  else if ev.htype = "earthquake" then
    (0.001 * i ^ (2.5 : ℝ) * odr, 0.01 * i ^ 2 * odr, 0.05 * i ^ (1.5 : ℝ) * odr)
  else
    (0.0001 * i * odr, 0.001 * i * odr, 0.01 * i * odr)

/-- Source `damages['casualties']`. -/
structure Casualties where
  deaths : ℤ
  injuries : ℤ
  displaced : ℤ
deriving DecidableEq, Repr

/-- Source `overall_damage_ratio = total_damaged_buildings / total_buildings`. -/
noncomputable def overallDamageRatio (ev : HazardEventIn) (buildings : List (BType × ℤ)) : ℝ :=
  ((((buildingDamages ev buildings).map (·.damaged_count)).sum : ℤ) : ℝ) /
    (((buildings.map (·.2)).sum : ℤ) : ℝ)

/-- Sections 1-2 of `calculate_damages`: building damages, then casualties
`int(exposed_population * rate)` for each rate — computed only when the total
exposed building count is positive, with *no* floor on the rates and *no* cap
relating the three counts to the exposed population. -/
noncomputable def calculateCasualties (exposedPopulation : ℝ)
    (buildings : List (BType × ℤ)) (ev : HazardEventIn) : Casualties :=
  let totalBuildings : ℤ := (buildings.map (·.2)).sum
  if totalBuildings > 0 then
    let rates := casualtyRates ev (overallDamageRatio ev buildings)
    { deaths := pyIntR (exposedPopulation * rates.1)
      injuries := pyIntR (exposedPopulation * rates.2.1)
      displaced := pyIntR (exposedPopulation * rates.2.2) }
  else
    { deaths := 0, injuries := 0, displaced := 0 }

/- ============================================================
   RecoveryModel  (src/src/models/recovery_model.py)
   ============================================================ -/

/-- The four sector keys of `recovery_horizons` / `recovery_trajectories`. -/
inductive Sector where
  | housing
  | infrastructure
  | livelihoods
  | social
deriving DecidableEq, Repr, Fintype

inductive CoordLevel where
  | poor
  | fair
  | good
  | excellent
deriving DecidableEq, Repr, Fintype

/-- Three-step level used by planning capacity, community engagement and the
BBB funding allocation tables. -/
inductive Level3 where
  | low
  | medium
  | high
deriving DecidableEq, Repr, Fintype

inductive CorruptionLevel where
  | high
  | medium
  | low
deriving DecidableEq, Repr, Fintype

inductive PolicyStrength where
  | weak
  | moderate
  | strong
deriving DecidableEq, Repr, Fintype

inductive TechCapacity where
  | limited
  | adequate
  | strong
deriving DecidableEq, Repr, Fintype

inductive FundingLevel where
  | very_low
  | low
  | medium
  | high
  | very_high
deriving DecidableEq, Repr, Fintype

def coordinationFactor : CoordLevel → ℚ
  | CoordLevel.poor => 0.7
  | CoordLevel.fair => 0.9
  | CoordLevel.good => 1.1
  | CoordLevel.excellent => 1.3

def planningFactor : Level3 → ℚ
  | Level3.low => 0.8
  | Level3.medium => 1.0
  | Level3.high => 1.2

def corruptionFactor : CorruptionLevel → ℚ
  | CorruptionLevel.high => 0.7
  | CorruptionLevel.medium => 0.9
  | CorruptionLevel.low => 1.1

def engagementFactor : Level3 → ℚ
  | Level3.low => 0.8
  | Level3.medium => 1.0
  | Level3.high => 1.2

def fundingLevelMultiplier : FundingLevel → ℚ
  | FundingLevel.very_low => 0.6
  | FundingLevel.low => 0.8
  | FundingLevel.medium => 1.0
  | FundingLevel.high => 1.2
  | FundingLevel.very_high => 1.3

def bbbPolicyFactor : PolicyStrength → ℚ
  | PolicyStrength.weak => 0.1
  | PolicyStrength.moderate => 0.2
  | PolicyStrength.strong => 0.3

def bbbFundingFactor : Level3 → ℚ
  | Level3.low => 0.1
  | Level3.medium => 0.2
  | Level3.high => 0.3

def bbbCapacityFactor : TechCapacity → ℚ
  | TechCapacity.limited => 0.6
  | TechCapacity.adequate => 1.0
  | TechCapacity.strong => 1.3

/-- Source `self.recovery_rates['housing']` (only the four known keys). -/
def housingRate? (bt : String) : Option ℚ :=
  if bt = "RCC" then some 0.10
  else if bt = "semi_pucca" then some 0.08
  else if bt = "kutcha" then some 0.15
  else if bt = "jhupri" then some 0.20
  else none

/-- Infrastructure-type mapping by substring followed by the
`self.recovery_rates['infrastructure']` lookup (default `roads`). -/
def infraMappedRate (t : String) : ℚ :=
  let l := t.toLower
  if strContains l "road" then 0.12
  else if strContains l "bridge" then 0.05
  else if strContains l "electric" || strContains l "power" then 0.15
  else if strContains l "water" then 0.10
  else if strContains l "school" then 0.08
  else if strContains l "hospital" || strContains l "clinic" then 0.07
  else if strContains l "embankment" || strContains l "levee" then 0.06
  else 0.12

/-- Source `self.regional_recovery_factors` lookup with the `else 1.0` fallback. -/
def regionalMultiplier (region_type : Option String) : ℚ :=
  let s := region_type.getD "flood_plain"
  if s = "coastal" then 0.9
  else if s = "urban" then 1.1
  else if s = "flood_plain" then 0.9
  else if s = "haor_basin" then 0.8
  else if s = "hill_tracts" then 0.8
  else if s = "char_lands" then 0.7
  else 1.0

/-- Source `self.seasonal_recovery_factors`, indexed by calendar month 1..12. -/
def seasonalFactor (m : ℕ) : ℚ :=
  if m = 1 then 0.9
  else if m = 2 then 1.0
  else if m = 3 then 1.1
  else if m = 4 then 1.0
  else if m = 5 then 0.9
  else if m = 6 then 0.7
  else if m = 7 then 0.6
  else if m = 8 then 0.6
  else if m = 9 then 0.7
  else if m = 10 then 0.9
  else if m = 11 then 1.0
  else 0.9

/-- Source `disaster_impacts['economic']` entries (`.get` defaults 0).  `none` models
a missing or empty (falsy) dict. -/
structure EconomicIn where
  direct_losses : ℚ := 0
  indirect_losses : ℚ := 0
deriving DecidableEq, Repr

/-- Source `disaster_impacts['casualties']` entries. -/
structure CasualtiesIn where
  deaths : ℚ := 0
  injuries : ℚ := 0
  displaced : ℚ := 0
deriving DecidableEq, Repr

/-- The `disaster_impacts` argument of `simulate_recovery`: building and
infrastructure damage entries carry their `damaged_count`. -/
structure DisasterImpacts where
  buildings : List (String × ℚ) := []
  infrastructure : List (String × ℚ) := []
  economic : Option EconomicIn := none
  casualties : Option CasualtiesIn := none
  region_type : Option String := none

/-- The `governance_quality` argument (levels; `.get` defaults are
fair / medium / medium / medium). -/
structure GovernanceQuality where
  coordination : CoordLevel := CoordLevel.fair
  planning_capacity : Level3 := Level3.medium
  corruption_level : CorruptionLevel := CorruptionLevel.medium
  community_engagement : Level3 := Level3.medium
deriving DecidableEq, Repr, Fintype

/-- The `funding_availability` argument (`total_funding` optional;
BBB levels default moderate / medium / adequate). -/
structure FundingAvailability where
  total_funding : Option ℚ := none
  bbb_policy_strength : PolicyStrength := PolicyStrength.moderate
  bbb_funding_allocation : Level3 := Level3.medium
  bbb_technical_capacity : TechCapacity := TechCapacity.adequate
deriving DecidableEq, Repr

/-- Housing part of `_calculate_recovery_horizons`: damage-count-weighted
average recovery rate, horizon `min(60, int(1.0 / avg_rate))`; the division
`1.0 / avg_rate` raises when the average rate is zero. -/
def housingHorizon (bs : List (String × ℚ)) : Except PyError ℤ :=
  match bs with
  | [] => Except.ok 0
  | _ =>
    let total := (bs.map (·.2)).sum
    let weighted := (bs.map fun bc =>
      match housingRate? bc.1 with
      | some r => bc.2 * r
      | none => 0).sum
    if total > 0 then do
      let inv ← pydiv 1 (weighted / total)
      pure (min 60 (pyIntQ inv))
    else pure 0

/-- Infrastructure part of `_calculate_recovery_horizons` (cap 72 months). -/
def infraHorizon (is' : List (String × ℚ)) : Except PyError ℤ :=
  match is' with
  | [] => Except.ok 0
  | _ =>
    let total := (is'.map (·.2)).sum
    let weighted := (is'.map fun ic => ic.2 * infraMappedRate ic.1).sum
    if total > 0 then do
      let inv ← pydiv 1 (weighted / total)
      pure (min 72 (pyIntQ inv))
    else pure 0

/-- Livelihoods part of `_calculate_recovery_horizons` (rates 0.12 direct /
0.08 indirect, cap 60 months). -/
def livelihoodsHorizon (econ : Option EconomicIn) : Except PyError ℤ :=
  match econ with
  | none => Except.ok 0
  | some e =>
    let d := e.direct_losses
    let i := e.indirect_losses
    if d + i > 0 then do
      let inv ← pydiv 1 ((d * 0.12 + i * 0.08) / (d + i))
      pure (min 60 (pyIntQ inv))
    else pure 0

/-- Social part of `_calculate_recovery_horizons` (weights 5 / 1 / 0.5,
scaled by 1000, cap 84 months). -/
def socialHorizon (cas : Option CasualtiesIn) : ℤ :=
  match cas with
  | none => 0
  | some c =>
    if c.deaths + c.injuries + c.displaced > 0 then
      min 84 (pyIntQ ((c.deaths * 5 + c.injuries * 1 + c.displaced * 0.5) / 1000))
    else 0

/-- Source `_estimate_funding_needs`: `direct * 1.5 + indirect * 0.5`. -/
def fundingNeeds (impacts : DisasterImpacts) : ℚ :=
  let d := (impacts.economic.map (·.direct_losses)).getD 0
  let i := (impacts.economic.map (·.indirect_losses)).getD 0
  d * 1.5 + i * 0.5

/-- The funding-level thresholds of `simulate_recovery`. -/
def fundingLevelOf (ratio : ℚ) : FundingLevel :=
  if ratio < 0.2 then FundingLevel.very_low
  else if ratio < 0.5 then FundingLevel.low
  else if ratio < 0.8 then FundingLevel.medium
  else if ratio < 1.0 then FundingLevel.high
  else FundingLevel.very_high

/-- The weighted governance multiplier (weights 0.3 / 0.3 / 0.2 / 0.2). -/
def governanceMultiplier (gq : GovernanceQuality) : ℚ :=
  coordinationFactor gq.coordination * 0.3 +
  planningFactor gq.planning_capacity * 0.3 +
  corruptionFactor gq.corruption_level * 0.2 +
  engagementFactor gq.community_engagement * 0.2

/-- Source `bbb_improvement`: product of the three BBB table factors. -/
def bbbImprovement (fa : FundingAvailability) : ℚ :=
  bbbPolicyFactor fa.bbb_policy_strength *
  bbbFundingFactor fa.bbb_funding_allocation *
  bbbCapacityFactor fa.bbb_technical_capacity

/-- Source `self.recovery_patterns` value for a sector at timestep `t` of a horizon
`h`: early-rapid `sqrt` for housing, S-shaped logistic for infrastructure and
livelihoods, late-rapid square for social. -/
noncomputable def patternValue (sector : Sector) (t : ℕ) (h : ℤ) : ℝ :=
  let x : ℝ := (t : ℝ) / (h : ℝ)
  match sector with
  | Sector.housing => Real.sqrt x
  | Sector.infrastructure => 1 / (1 + Real.exp (-10 * (x - 0.5)))
  | Sector.livelihoods => 1 / (1 + Real.exp (-10 * (x - 0.5)))
  | Sector.social => x ^ 2

/-- The month-indexed loop of `_generate_sector_trajectory`: the value after
`t` steps; step `t` scales the baseline increment by the combined multiplier
and the seasonal factor of calendar month `(t % 12) + 1` (with
`current_month = 1`), capping the running total at 1.  Step 0 starts at 0. -/
noncomputable def adjustedValue (sector : Sector) (h : ℤ) (m : ℚ) : ℕ → ℝ
  | 0 => 0
  | t + 1 =>
    min 1 (adjustedValue sector h m t +
      (patternValue sector (t + 1) h - patternValue sector t h) *
        ((m * seasonalFactor ((t + 1) % 12 + 1) : ℚ) : ℝ))

/-- Source `_generate_sector_trajectory`: `[1.0]` when the horizon is zero, the
adjusted monthly sequence over `0..horizon` otherwise (`np.arange` yields an
empty sequence for a negative horizon). -/
noncomputable def generateSectorTrajectory (sector : Sector) (h : ℤ) (m : ℚ) : List ℝ :=
  if h = 0 then [1]
  else if h < 0 then []
  else (List.range (h.toNat + 1)).map (adjustedValue sector h m)

/-- The build-back-better post-processing of `simulate_recovery`
(lines 230-239): when `bbb_improvement > 0`, every value is capped at
`trajectory[-1] * (1 + bbb_improvement)`; indexing `[-1]` of an empty
trajectory raises `IndexError`. -/
noncomputable def applyBBB (bbb : ℚ) (traj : List ℝ) : Except PyError (List ℝ) :=
  if bbb > 0 then
    match traj.getLast? with
    | some l => Except.ok (traj.map fun v => min v (l * ((1 + bbb : ℚ) : ℝ)))
    | none => Except.error PyError.indexError
  else Except.ok traj

/-- The result dict of `simulate_recovery` (the derived milestone and
quality-score entries are omitted: they compare trajectory reals and are not
used by any checked property). -/
structure RecoveryResult where
  housing_traj : List ℝ
  infrastructure_traj : List ℝ
  livelihoods_traj : List ℝ
  social_traj : List ℝ
  housing_horizon : ℤ
  infrastructure_horizon : ℤ
  livelihoods_horizon : ℤ
  social_horizon : ℤ
  funding_ratio : ℚ
  bbb_improvement : ℚ
  total_funding_needs : ℚ
  available_funding : ℚ

/-- Source `RecoveryModel.simulate_recovery(disaster_impacts, governance_quality,
funding_availability)`: horizons, funding ratio
(`available_funding / funding_needs`, raising `ZeroDivisionError` when the
needs are zero — the default available funding is `funding_needs * 0.7`),
multipliers, BBB improvement, then the four sector trajectories. -/
noncomputable def simulateRecovery (impacts : DisasterImpacts) (gq : GovernanceQuality)
    (fa : FundingAvailability) : Except PyError RecoveryResult := do
  let hH ← housingHorizon impacts.buildings
  let iH ← infraHorizon impacts.infrastructure
  let lH ← livelihoodsHorizon impacts.economic
  let sH := socialHorizon impacts.casualties
  let needs := fundingNeeds impacts
  let available := fa.total_funding.getD (needs * 0.7)
  let ratio ← pydiv available needs
  let fm := fundingLevelMultiplier (fundingLevelOf ratio)
  let gm := governanceMultiplier gq
  let rm := regionalMultiplier impacts.region_type
  let bbb := bbbImprovement fa
  let m := fm * gm * rm
  let ht ← applyBBB bbb (generateSectorTrajectory Sector.housing hH m)
  let it ← applyBBB bbb (generateSectorTrajectory Sector.infrastructure iH m)
  let lt ← applyBBB bbb (generateSectorTrajectory Sector.livelihoods lH m)
  let st ← applyBBB bbb (generateSectorTrajectory Sector.social sH m)
  pure { housing_traj := ht, infrastructure_traj := it
         livelihoods_traj := lt, social_traj := st
         housing_horizon := hH, infrastructure_horizon := iH
         livelihoods_horizon := lH, social_horizon := sH
         funding_ratio := ratio, bbb_improvement := bbb
         total_funding_needs := needs, available_funding := available }

/- ============================================================
   Concrete instances used by the individual checks
   ============================================================ -/

/-- The main script's flood hazard configuration (return periods
[10, 20, 50, 100], riverine, monsoon-profile), used to compare two
successive runs. -/
def c2Cfg : HazardModelCfg :=
  { hazard_type := "flood", return_periods := [10, 20, 50, 100]
    spatial_patterns := "riverine", seasonal_profile := "monsoon" }

/-- One concrete state of the shared global uniform stream. -/
def c2Stream : ℕ → ℚ := fun n =>
  if n = 0 then 1 / 20 else if n ≤ 2 then 1 / 2 else 19 / 20

/-- Flood hazard with a single 5-year return period. -/
def c4Cfg : HazardModelCfg :=
  { hazard_type := "flood", return_periods := [5]
    spatial_patterns := "riverine", seasonal_profile := "monsoon" }

/-- A concrete instantiation of the distribution samplers. -/
noncomputable def unitSamplers : Samplers :=
  { gammaSample := fun _ _ u => ((u : ℚ) : ℝ) }

/-- Flood event of depth 10 m fed to `calculate_damages`. -/
noncomputable def c1Event : HazardEventIn := { htype := "flood", depth := 10 }

/-- Flood event of depth 1 m fed to `calculate_damages`. -/
noncomputable def c1MildEvent : HazardEventIn := { htype := "flood", depth := 1 }

/-- Disaster impacts whose horizons are all zero while the funding needs stay
positive (`1.5 * 1 + 0.5 * (-24/25) = 51/50`). -/
def c3Impacts : DisasterImpacts :=
  { economic := some { direct_losses := 1, indirect_losses := -(24 / 25) } }

/-- Disaster impacts with strictly positive direct losses. -/
def c10PosImpacts : DisasterImpacts :=
  { economic := some { direct_losses := 100, indirect_losses := 0 } }

/-- The full result `simulate_recovery` returns on `c3Impacts` with default
governance and funding inputs: all horizons are zero, so every sector
trajectory is the single element 1.0. -/
noncomputable def c3Result : RecoveryResult :=
  { housing_traj := [1], infrastructure_traj := [1]
    livelihoods_traj := [1], social_traj := [1]
    housing_horizon := 0, infrastructure_horizon := 0
    livelihoods_horizon := 0, social_horizon := 0
    funding_ratio := 7 / 10, bbb_improvement := 1 / 25
    total_funding_needs := 51 / 50, available_funding := 357 / 500 }

/-- The twelve consecutive annual update calls 2026..2037. -/
def c5Years : List ℤ :=
  [2026, 2027, 2028, 2029, 2030, 2031, 2032, 2033, 2034, 2035, 2036, 2037]

/-- The first eleven of those update calls, 2026..2036. -/
def c5YearsPre : List ℤ :=
  [2026, 2027, 2028, 2029, 2030, 2031, 2032, 2033, 2034, 2035, 2036]

/-- A two-unit region stock sample. -/
def c9Attrs : UnitAttrs :=
  { unit_populations := [100, 200], unit_building_counts := [10, 20] }

/-- A riverine footprint naming all three major river systems. -/
def c9Fp : Footprint :=
  { ftype := "riverine", affected_rivers := ["brahmaputra", "ganges", "meghna"] }

/- ============================================================
   Property vocabulary used by the theorem statements
   ============================================================ -/

/-- Strict betweenness of `x` relative to two anchor values, required only
when the anchors differ. -/
def strictlyBetween (a b x : ℚ) : Prop := a ≠ b → min a b < x ∧ x < max a b

/-- Componentwise strict betweenness of a parameter bundle between the two
anchor bundles, for every parameter whose anchors differ. -/
def paramsStrictlyBetween (p q r : ClimateParams) : Prop :=
  strictlyBetween p.temperature_increase q.temperature_increase r.temperature_increase ∧
  strictlyBetween p.sea_level_rise q.sea_level_rise r.sea_level_rise ∧
  strictlyBetween p.cyclone_intensity_factor q.cyclone_intensity_factor
    r.cyclone_intensity_factor ∧
  strictlyBetween p.drought_frequency_factor q.drought_frequency_factor
    r.drought_frequency_factor ∧
  strictlyBetween p.extreme_rainfall_factor q.extreme_rainfall_factor
    r.extreme_rainfall_factor ∧
  ∀ i ∈ ([0, 1, 2, 3] : List ℕ),
    strictlyBetween (p.precipitation_change.getD i 0) (q.precipitation_change.getD i 0)
      (r.precipitation_change.getD i 0)

/-- The recovery-trajectory shape properties of one sector: monthly values
are non-decreasing and bounded by 1, a zero recovery horizon yields the
single value 1, a non-zero horizon starts at 0, and the final value is at
most `1 + bbb_improvement`. -/
def trajectoryOk (tr : List ℝ) (h : ℤ) (bbb : ℚ) : Prop :=
  List.Chain' (· ≤ ·) tr ∧
  (∀ x ∈ tr, x ≤ (1 : ℝ)) ∧
  (h = 0 → tr = [1]) ∧
  (h ≠ 0 → tr.head? = some 0) ∧
  ∀ l, tr.getLast? = some l → l ≤ 1 + (bbb : ℝ)

/- ============================================================
   Climate claims
   ============================================================ -/

/-- Unknown pathway names resolve to the same anchor triple as RCP4.5. -/
theorem resolveScenario_unknown {p : String} (hp : p ∉ knownScenarios) :
    resolveScenario p = resolveScenario "RCP4.5" := by
  simp only [knownScenarios, List.mem_cons, List.not_mem_nil, or_false, not_or] at hp
  obtain ⟨h1, h2, h3⟩ := hp
  simp [resolveScenario, scenarioTable, h1, h2, h3]

/-- C7: for each known pathway, `get_annual_climate_parameters(2030, pathway)`
returns exactly the pathway's decade-2030 anchor table values, and the value
at 2035 is strictly between the 2030 and 2040 anchors in every parameter
whose two anchors differ. -/
theorem climate_decade_boundary_exact_and_midyear_between :
    (getAnnualClimateParameters 2030 "RCP4.5" = rcp45_2030 ∧
     getAnnualClimateParameters 2030 "RCP8.5" = rcp85_2030 ∧
     getAnnualClimateParameters 2030 "RCP2.6" = rcp26_2030) ∧
    (paramsStrictlyBetween rcp45_2030 rcp45_2040 (getAnnualClimateParameters 2035 "RCP4.5") ∧
     paramsStrictlyBetween rcp85_2030 rcp85_2040 (getAnnualClimateParameters 2035 "RCP8.5") ∧
     paramsStrictlyBetween rcp26_2030 rcp26_2040 (getAnnualClimateParameters 2035 "RCP2.6")) := by
  refine ⟨⟨?_, ?_, ?_⟩, ⟨?_, ?_, ?_⟩⟩ <;>
    simp [getAnnualClimateParameters, resolveScenario, scenarioTable, lerpParams, lerpQ,
      baseline2025, paramsStrictlyBetween, strictlyBetween, rcp45_2030, rcp45_2040,
      rcp85_2030, rcp85_2040, rcp26_2030, rcp26_2040] <;>
    norm_num

/-- C6 counterexample: at year 2060 the returned parameters do not equal the
2050 anchor values — the 2040→2050 trend is extrapolated
(temperature 1.7 instead of the 1.4 anchor), so the target year is not
clamped to [2030, 2050]. -/
theorem climate_above_2050_not_clamped_cex :
    getAnnualClimateParameters 2060 "RCP4.5" ≠ rcp45_2050 ∧
    (getAnnualClimateParameters 2060 "RCP4.5").temperature_increase = 17 / 10 ∧
    rcp45_2050.temperature_increase = 7 / 5 := by
  refine ⟨?_, ?_, ?_⟩ <;>
    simp [getAnnualClimateParameters, resolveScenario, scenarioTable, lerpParams, lerpQ,
      rcp45_2040, rcp45_2050, ClimateParams.mk.injEq] <;>
    norm_num

/-- C6 (amended): `get_annual_climate_parameters` interpolates linearly from
the zero-valued 2025 baseline up to the 2030 anchor, linearly between decade
anchors inside [2030, 2050], and for years beyond 2050 it keeps extrapolating
the 2040→2050 linear trend (the factor `(year-2040)/10` exceeds 1), so the
output overshoots the 2050 anchor instead of being clamped to it. -/
theorem climate_interpolation_amended (y : ℤ) (s : String) :
    (y ≤ 2030 →
      getAnnualClimateParameters y s =
        lerpParams baseline2025 (resolveScenario s).1 (((y : ℚ) - 2025) / 5)) ∧
    (2030 < y → y ≤ 2040 →
      getAnnualClimateParameters y s =
        lerpParams (resolveScenario s).1 (resolveScenario s).2.1 (((y : ℚ) - 2030) / 10)) ∧
    (2040 < y →
      getAnnualClimateParameters y s =
        lerpParams (resolveScenario s).2.1 (resolveScenario s).2.2 (((y : ℚ) - 2040) / 10)) ∧
    (2050 < y →
      (resolveScenario s).2.1.temperature_increase <
        (resolveScenario s).2.2.temperature_increase →
      (resolveScenario s).2.2.temperature_increase <
        (getAnnualClimateParameters y s).temperature_increase) := by
  refine ⟨?_, ?_, ?_, ?_⟩
  · intro h
    simp only [getAnnualClimateParameters, if_pos h]
    congr 1
    push_cast
    ring
  · intro h1 h2
    have h1' : ¬ y ≤ 2030 := by omega
    simp only [getAnnualClimateParameters, if_neg h1', if_pos h2]
    congr 1
    push_cast
    ring
  · intro h2
    have h1' : ¬ y ≤ 2030 := by omega
    have h2' : ¬ y ≤ 2040 := by omega
    simp only [getAnnualClimateParameters, if_neg h1', if_neg h2']
    congr 1
    push_cast
    ring
  · intro h50 hanch
    have h1' : ¬ y ≤ 2030 := by omega
    have h2' : ¬ y ≤ 2040 := by omega
    simp only [getAnnualClimateParameters, if_neg h1', if_neg h2', lerpParams, lerpQ]
    have hy : (2050 : ℚ) < (y : ℚ) := by exact_mod_cast h50
    have hf : (1 : ℚ) < ((y - 2040 : ℤ) : ℚ) / 10 := by push_cast; linarith
    have := mul_lt_mul_of_pos_left hf (sub_pos.2 hanch)
    linarith

/-- C6 witness: the amended interpolation law applied at year 2060. -/
theorem climate_interpolation_amended_witness :
    getAnnualClimateParameters 2060 "RCP4.5" =
      lerpParams (resolveScenario "RCP4.5").2.1 (resolveScenario "RCP4.5").2.2
        (((2060 : ℚ) - 2040) / 10) ∧
    (resolveScenario "RCP4.5").2.2.temperature_increase <
      (getAnnualClimateParameters 2060 "RCP4.5").temperature_increase :=
  ⟨(climate_interpolation_amended 2060 "RCP4.5").2.2.1 (by norm_num),
   (climate_interpolation_amended 2060 "RCP4.5").2.2.2 (by norm_num)
     (by norm_num [resolveScenario, scenarioTable, rcp45_2040, rcp45_2050])⟩

/-- C8 counterexample: for an unknown pathway name the entire return value of
both `get_annual_climate_parameters` and `apply_climate_scenarios` is
identical to the RCP4.5 return value — no component of the output signals the
fallback to the caller, so the fallback is applied silently (and neither
function performs any logging call). -/
theorem climate_unknown_pathway_silent_cex :
    getAnnualClimateParameters 2035 "SSP5-8.5" = getAnnualClimateParameters 2035 "RCP4.5" ∧
    applyClimateScenarios 2035 "SSP5-8.5" "coastal" "flood" =
      applyClimateScenarios 2035 "RCP4.5" "coastal" "flood" := by
  constructor <;>
    simp [getAnnualClimateParameters, applyClimateScenarios, resolveScenario, scenarioTable]

/-- C8 (amended): every pathway name outside `{RCP2.6, RCP4.5, RCP8.5}` falls
back to the intermediate pathway: the numeric output of both
`get_annual_climate_parameters` and `apply_climate_scenarios` is identical to
the output for RCP4.5 with the same remaining arguments; the fallback is
silent — the returned value carries no indication of it. -/
theorem climate_unknown_pathway_fallback (y : ℤ) (p region hazard : String)
    (hp : p ∉ knownScenarios) :
    getAnnualClimateParameters y p = getAnnualClimateParameters y "RCP4.5" ∧
    applyClimateScenarios y p region hazard = applyClimateScenarios y "RCP4.5" region hazard := by
  constructor
  · unfold getAnnualClimateParameters
    rw [resolveScenario_unknown hp]
  · unfold applyClimateScenarios
    rw [resolveScenario_unknown hp]

/-- C8 witness: the fallback law applied to the unknown name SSP1 at
year 2047 for an urban cyclone query. -/
theorem climate_unknown_pathway_fallback_witness :
    getAnnualClimateParameters 2047 "SSP1" = getAnnualClimateParameters 2047 "RCP4.5" ∧
    applyClimateScenarios 2047 "SSP1" "urban" "cyclone" =
      applyClimateScenarios 2047 "RCP4.5" "urban" "cyclone" :=
  climate_unknown_pathway_fallback 2047 "SSP1" "urban" "cyclone" (by simp [knownScenarios])

/- ============================================================
   Exposure claims
   ============================================================ -/

/-- C5: `update_exposure` caps the RCC fraction at 0.35 but still subtracts
the full half-increment from the kutcha and semi-pucca fractions, so after
the consecutive annual updates 2026..2036 the four building-type fractions
still sum to 1, while the 2037 update (where the cap first binds) drives the
sum down to 0.966 — the sum-to-1 invariant is violated well beyond any
rounding tolerance. -/
theorem building_fraction_sum_drifts_after_cap :
    btypeSum (c5YearsPre.foldl updateExposure initialExposureState) = 1 ∧
    btypeSum (c5Years.foldl updateExposure initialExposureState) = 483 / 500 ∧
    btypeSum (c5Years.foldl updateExposure initialExposureState) ≠ 1 := by
  refine ⟨?_, ?_, ?_⟩ <;>
    (simp [c5Years, c5YearsPre, btypeSum, updateExposure, initialExposureState, min_def]
     ; norm_num)

theorem maskedSum_nonneg (mask : List Bool) (xs : List ℚ) (h : ∀ x ∈ xs, 0 ≤ x) :
    0 ≤ maskedSum mask xs := by
  induction xs generalizing mask with
  | nil => cases mask <;> simp [maskedSum]
  | cons x t ih =>
    cases mask with
    | nil => simp [maskedSum]
    | cons b mt =>
      have hx : 0 ≤ x := h x (List.mem_cons_self x t)
      have ht : 0 ≤ maskedSum mt t := ih mt (fun y hy => h y (List.mem_cons_of_mem x hy))
      cases b <;> simp [maskedSum] at ht ⊢ <;> positivity

theorem maskedSum_le_sum (mask : List Bool) (xs : List ℚ) (h : ∀ x ∈ xs, 0 ≤ x) :
    maskedSum mask xs ≤ xs.sum := by
  induction xs generalizing mask with
  | nil => cases mask <;> simp [maskedSum]
  | cons x t ih =>
    have hx : 0 ≤ x := h x (List.mem_cons_self x t)
    have hts : 0 ≤ t.sum := List.sum_nonneg (fun y hy => h y (List.mem_cons_of_mem x hy))
    cases mask with
    | nil => simp [maskedSum]; positivity
    | cons b mt =>
      have ht : maskedSum mt t ≤ t.sum := ih mt (fun y hy => h y (List.mem_cons_of_mem x hy))
      cases b <;> simp [maskedSum] at ht ⊢ <;> linarith

theorem pyIntQ_le {x : ℚ} (hx : 0 ≤ x) : (pyIntQ x : ℚ) ≤ x := by
  rw [pyIntQ, if_pos hx]
  exact_mod_cast Int.floor_le x

/-- The coastal branch clamps to [0.1, 0.4]. -/
theorem exposureRatio_coastal (fp : Footprint) (hf : fp.ftype = "coastal") :
    1 / 10 ≤ exposureRatio fp ∧ exposureRatio fp ≤ 2 / 5 := by
  unfold exposureRatio
  rw [hf, if_neg (by decide : ¬ ("coastal" : String) = "riverine"), if_pos rfl]
  constructor
  · exact le_min ((by norm_num : (1 / 10 : ℚ) ≤ 0.1).trans
      (le_max_right ((fp.affected_coast.length : ℚ) / 3) 0.1)) (by norm_num)
  · exact le_trans (min_le_right _ _) (by norm_num)

/-- The generic branch returns exactly 0.1. -/
theorem exposureRatio_generic (fp : Footprint) (h1 : fp.ftype ≠ "riverine")
    (h2 : fp.ftype ≠ "coastal") : exposureRatio fp = 1 / 10 := by
  unfold exposureRatio
  rw [if_neg h1, if_neg h2]
  norm_num

/-- The exposure ratio always lands in [0.1, 0.5]. -/
theorem exposureRatio_bounds (fp : Footprint) :
    1 / 10 ≤ exposureRatio fp ∧ exposureRatio fp ≤ 1 / 2 := by
  unfold exposureRatio
  split_ifs with h1 h2
  · constructor
    · exact le_min ((by norm_num : (1 / 10 : ℚ) ≤ 0.1).trans
        (le_max_right ((fp.affected_rivers.length : ℚ) / 3) 0.1)) (by norm_num)
    · exact le_trans (min_le_right _ _) (by norm_num)
  · constructor
    · exact le_min ((by norm_num : (1 / 10 : ℚ) ≤ 0.1).trans
        (le_max_right ((fp.affected_coast.length : ℚ) / 3) 0.1)) (by norm_num)
    · exact le_trans (min_le_right _ _) (by norm_num)
  · norm_num

/-- A pointwise bound on a mapped table transfers to `Forall₂`. -/
theorem forall₂_map_table {α : Type} (l : List (α × ℚ)) (f : α × ℚ → ℤ)
    (h : ∀ p ∈ l, ((f p : ℤ) : ℚ) ≤ p.2) :
    List.Forall₂ (fun ec tc => ec.1 = tc.1 ∧ ((ec.2 : ℤ) : ℚ) ≤ tc.2)
      (l.map fun p => (p.1, f p)) l := by
  induction l with
  | nil => simp
  | cons p t ih =>
    refine List.Forall₂.cons ⟨rfl, h p (List.mem_cons_self p t)⟩
      (ih fun q hq => h q (List.mem_cons_of_mem p hq))

/-- Bound for an infrastructure exposure entry. -/
theorem infra_entry_le (c r : ℚ) (hc : 0 ≤ c) (hr1 : 1 / 10 ≤ r) (hr2 : r ≤ 1 / 2) :
    (pyIntQ (c * r * 0.8) : ℚ) ≤ c := by
  have h0 : 0 ≤ c * r * 0.8 := by nlinarith
  calc (pyIntQ (c * r * 0.8) : ℚ) ≤ c * r * 0.8 := pyIntQ_le h0
  _ ≤ c := by nlinarith

/-- Bound for an agricultural exposure entry. -/
theorem agri_entry_le (k : String) (a r : ℚ) (ha : 0 ≤ a) (hr1 : 1 / 10 ≤ r)
    (hr2 : r ≤ 1 / 2) : (pyIntQ (a * cropExposure k r) : ℚ) ≤ a := by
  have hce : 0 ≤ cropExposure k r ∧ cropExposure k r ≤ 1 := by
    unfold cropExposure
    split_ifs <;> constructor <;> nlinarith
  have h0 : 0 ≤ a * cropExposure k r := mul_nonneg ha hce.1
  calc (pyIntQ (a * cropExposure k r) : ℚ) ≤ a * cropExposure k r := pyIntQ_le h0
  _ ≤ a := by nlinarith [hce.2]

set_option maxHeartbeats 1000000 in
/-- C9: `get_exposed_elements` keeps the exposure ratio in the
footprint-type-specific range ([0.1, 0.5] riverine, [0.1, 0.4] coastal,
exactly 0.1 generic), and every exposed quantity — population, buildings per
type, infrastructure per type and crop area per crop (with the 1.2x rice and
1.5x aquaculture multipliers) — does not exceed the corresponding total stock
quantity. -/
theorem exposed_quantities_bounded (attrs : UnitAttrs) (fp : Footprint) (mask : List Bool)
    (hpop : ∀ x ∈ attrs.unit_populations, 0 ≤ x)
    (hbld : ∀ x ∈ attrs.unit_building_counts, 0 ≤ x) :
    (fp.ftype = "riverine" →
      1 / 10 ≤ (getExposedElements attrs fp mask).exposure_ratio ∧
      (getExposedElements attrs fp mask).exposure_ratio ≤ 1 / 2) ∧
    (fp.ftype = "coastal" →
      1 / 10 ≤ (getExposedElements attrs fp mask).exposure_ratio ∧
      (getExposedElements attrs fp mask).exposure_ratio ≤ 2 / 5) ∧
    (fp.ftype ≠ "riverine" → fp.ftype ≠ "coastal" →
      (getExposedElements attrs fp mask).exposure_ratio = 1 / 10) ∧
    (getExposedElements attrs fp mask).population ≤ attrs.unit_populations.sum ∧
    (∀ bt, ((getExposedElements attrs fp mask).buildings bt : ℚ) ≤
      attrs.unit_building_counts.sum * buildingFraction bt) ∧
    List.Forall₂ (fun ec tc => ec.1 = tc.1 ∧ (ec.2 : ℚ) ≤ tc.2)
      (getExposedElements attrs fp mask).infrastructure criticalFacilities ∧
    List.Forall₂ (fun ec tc => ec.1 = tc.1 ∧ (ec.2 : ℚ) ≤ tc.2)
      (getExposedElements attrs fp mask).agriculture agriculturalData := by
  obtain ⟨hr1, hr2⟩ := exposureRatio_bounds fp
  refine ⟨?_, ?_, ?_, ?_, ?_, ?_, ?_⟩
  · intro hf
    constructor
    · simpa [getExposedElements] using hr1
    · simpa [getExposedElements] using hr2
  · intro hf
    have h := exposureRatio_coastal fp hf
    constructor
    · simpa [getExposedElements] using h.1
    · simpa [getExposedElements] using h.2
  · intro h1 h2
    simpa [getExposedElements] using exposureRatio_generic fp h1 h2
  · simpa [getExposedElements] using maskedSum_le_sum mask attrs.unit_populations hpop
  · intro bt
    have hfr : 0 ≤ buildingFraction bt := by cases bt <;> norm_num [buildingFraction]
    have hS0 : 0 ≤ maskedSum mask attrs.unit_building_counts :=
      maskedSum_nonneg mask attrs.unit_building_counts hbld
    have hSle : maskedSum mask attrs.unit_building_counts ≤ attrs.unit_building_counts.sum :=
      maskedSum_le_sum mask attrs.unit_building_counts hbld
    calc ((getExposedElements attrs fp mask).buildings bt : ℚ)
        ≤ maskedSum mask attrs.unit_building_counts * buildingFraction bt := by
          simpa [getExposedElements] using pyIntQ_le (mul_nonneg hS0 hfr)
    _ ≤ attrs.unit_building_counts.sum * buildingFraction bt :=
          mul_le_mul_of_nonneg_right hSle hfr
  · simp only [getExposedElements]
    refine forall₂_map_table criticalFacilities _ ?_
    intro p hp
    refine infra_entry_le _ _ ?_ hr1 hr2
    fin_cases hp <;> norm_num
  · simp only [getExposedElements]
    refine forall₂_map_table agriculturalData _ ?_
    intro p hp
    refine agri_entry_le _ _ _ ?_ hr1 hr2
    fin_cases hp <;> norm_num

/-- C9 witness: the bounds instantiated on a concrete two-unit stock, a
riverine footprint naming three rivers, and the mask selecting the first
unit. -/
theorem exposed_quantities_bounded_witness :
    1 / 10 ≤ (getExposedElements c9Attrs c9Fp [true, false]).exposure_ratio ∧
    (getExposedElements c9Attrs c9Fp [true, false]).exposure_ratio ≤ 1 / 2 ∧
    (getExposedElements c9Attrs c9Fp [true, false]).population ≤
      c9Attrs.unit_populations.sum := by
  have h := exposed_quantities_bounded c9Attrs c9Fp [true, false]
    (by intro x hx; fin_cases hx <;> norm_num [c9Attrs])
    (by intro x hx; fin_cases hx <;> norm_num [c9Attrs])
  exact ⟨(h.1 rfl).1, (h.1 rfl).2, h.2.2.2.1⟩

/- ============================================================
   Hazard claims
   ============================================================ -/

set_option maxHeartbeats 4000000 in
/-- C2 (code bug): no seed is ever applied — every stochastic draw of
`generate_events` reads the shared global generator, whose position persists
across calls.  Running the same hazard generation twice with identical
inputs, the first run returns one flood event (occurrence draw 0.05 < 0.1)
and the immediate re-run returns none (the global stream has advanced to the
draw 0.95), so the two byte-identical invocations produce different outputs. -/
theorem rerun_with_shared_global_rng_differs (smp : Samplers) :
    (generateEvents smp c2Cfg 2030 none { stream := c2Stream, pos := 0 }).1.length = 1 ∧
    (generateEvents smp c2Cfg 2030 none
      (generateEvents smp c2Cfg 2030 none { stream := c2Stream, pos := 0 }).2).1.length = 0 ∧
    (generateEvents smp c2Cfg 2030 none { stream := c2Stream, pos := 0 }).1 ≠
      (generateEvents smp c2Cfg 2030 none
        (generateEvents smp c2Cfg 2030 none { stream := c2Stream, pos := 0 }).2).1 := by
  have len1 : (generateEvents smp c2Cfg 2030 none { stream := c2Stream, pos := 0 }).1.length
      = 1 := by
    norm_num [generateEvents, c2Cfg, genForPeriods, RNG.next, c2Stream, annualProb,
      addHazardSpecificAttributes, sampleMonth, monthProbs, categoricalIdx, Option.bind]
  have len2 : (generateEvents smp c2Cfg 2030 none
      (generateEvents smp c2Cfg 2030 none { stream := c2Stream, pos := 0 }).2).1.length
      = 0 := by
    norm_num [generateEvents, c2Cfg, genForPeriods, RNG.next, c2Stream, annualProb,
      addHazardSpecificAttributes, sampleMonth, monthProbs, categoricalIdx, Option.bind]
  refine ⟨len1, len2, fun h => ?_⟩
  rw [h, len2] at len1
  exact one_ne_zero len1.symm

/-- C4 counterexample: with the climate-derived flood frequency multiplier of
RCP8.5 at 2050 on a floodplain region (1.3) and return period 1, the computed
annual occurrence probability is 1.3 — outside (0, 1] and different from 1,
because the code applies no clamping. -/
theorem occurrence_probability_not_clamped_cex :
    annualProb 1 (1 + ((applyClimateScenarios 2050 "RCP8.5" "floodplain"
      "flood").frequency_change.getD 0)) = 13 / 10 ∧
    ¬ annualProb 1 (1 + ((applyClimateScenarios 2050 "RCP8.5" "floodplain"
      "flood").frequency_change.getD 0)) ≤ 1 := by
  constructor <;>
    simp [annualProb, applyClimateScenarios, resolveScenario, scenarioTable,
      decadeAnchor, regionFactors, sensitivityTable, rcp85_2050, monsoonChange,
      winterChange] <;>
    norm_num

/-- C4 (amended): the annual occurrence probability is
`(1/return_period) * frequency_multiplier` with no clamping; it lies in
(0, 1] whenever `0 < fm ≤ rp`; for return period 1 it equals the frequency
multiplier (not necessarily 1), and an event still always occurs whenever the
multiplier is at least 1, since every uniform draw is below 1; occurrence in
`generate_events` is exactly the test `draw < annual_prob`. -/
theorem occurrence_probability_amended (rp fm u : ℚ) :
    (0 < rp → 0 < fm → fm ≤ rp → 0 < annualProb rp fm ∧ annualProb rp fm ≤ 1) ∧
    annualProb 1 fm = fm ∧
    (1 ≤ fm → 0 ≤ u → u < 1 → u < annualProb 1 fm) ∧
    ∀ (smp : Samplers) (cfg : HazardModelCfg) (year : ℤ) (ce : Option ClimateEffects)
      (g : RNG), cfg.return_periods = [rp] →
      ((generateEvents smp cfg year ce g).1 = [] ↔
        ¬ g.stream g.pos < annualProb rp (1 + ((ce.bind (·.frequency_change)).getD 0))) := by
  have hval : ∀ a b : ℚ, annualProb a b = b / a := by
    intro a b
    unfold annualProb
    ring
  refine ⟨?_, ?_, ?_, ?_⟩
  · intro hrp hfm hle
    rw [hval]
    exact ⟨div_pos hfm hrp, (div_le_one hrp).2 hle⟩
  · rw [hval]
    norm_num
  · intro h1 h0 hu
    rw [hval]
    norm_num
    exact lt_of_lt_of_le hu h1
  · intro smp cfg year ce g hper
    unfold generateEvents
    rw [hper]
    by_cases hc : g.stream g.pos <
        annualProb rp (1 + ((ce.bind (·.frequency_change)).getD 0))
    · simp [genForPeriods, RNG.next, hc]
    · simp [genForPeriods, RNG.next, hc]

/-- C4 witness: the amended law applied at return period 5 and frequency
multiplier 1.2 (and draw 0.5), plus the occurrence characterisation on a
concrete single-period flood configuration. -/
theorem occurrence_probability_amended_witness :
    (0 < annualProb 5 (6 / 5) ∧ annualProb 5 (6 / 5) ≤ 1) ∧
    annualProb 1 (6 / 5) = 6 / 5 ∧
    (1 / 2 : ℚ) < annualProb 1 (6 / 5) ∧
    ((generateEvents unitSamplers c4Cfg 2030 none { stream := c2Stream, pos := 0 }).1 = [] ↔
      ¬ c2Stream 0 < annualProb 5 (1 + ((Option.bind none
        (fun e : ClimateEffects => e.frequency_change)).getD 0))) :=
  ⟨(occurrence_probability_amended 5 (6 / 5) (1 / 2)).1 (by norm_num) (by norm_num)
      (by norm_num),
   (occurrence_probability_amended 5 (6 / 5) (1 / 2)).2.1,
   (occurrence_probability_amended 5 (6 / 5) (1 / 2)).2.2.1 (by norm_num) (by norm_num)
      (by norm_num),
   (occurrence_probability_amended 5 (6 / 5) (1 / 2)).2.2.2 unitSamplers c4Cfg 2030 none
      { stream := c2Stream, pos := 0 } rfl⟩

/- ============================================================
   Vulnerability claims
   ============================================================ -/

theorem pyIntR_le {x : ℝ} (hx : 0 ≤ x) : (pyIntR x : ℝ) ≤ x := by
  rw [pyIntR, if_pos hx]
  exact Int.floor_le x

theorem pyIntR_nonneg {x : ℝ} (hx : 0 ≤ x) : 0 ≤ pyIntR x := by
  rw [pyIntR, if_pos hx]
  exact Int.floor_nonneg.2 hx

theorem pyIntR_intCast (n : ℤ) : pyIntR ((n : ℤ) : ℝ) = n := by
  rw [pyIntR]
  split_ifs with h
  · exact Int.floor_intCast n
  · rw [show (-((n : ℤ) : ℝ)) = ((-n : ℤ) : ℝ) by push_cast; ring, Int.floor_intCast]
    ring

/-- C1 counterexample: a flood of depth 10 m over an exposure snapshot with
1000 exposed people and 10 exposed kutcha buildings yields
`displaced = int(1000 * 1.01) = 1010` alone exceeding the exposed
population — the code multiplies rates by the exposed population without any
cap on `deaths + injuries + displaced`. -/
theorem casualties_exceed_population_cex :
    (calculateCasualties 1000 [(BType.kutcha, 10)] c1Event).displaced = 1010 ∧
    (1000 : ℝ) <
      (((calculateCasualties 1000 [(BType.kutcha, 10)] c1Event).deaths +
        (calculateCasualties 1000 [(BType.kutcha, 10)] c1Event).injuries +
        (calculateCasualties 1000 [(BType.kutcha, 10)] c1Event).displaced : ℤ) : ℝ) := by
  have hred : calculateCasualties 1000 [(BType.kutcha, 10)] c1Event =
      { deaths := pyIntR (1000 * (0.0001 + 0.001 * (10 : ℝ) ^ 2))
        injuries := pyIntR (1000 * (0.001 + 0.005 * (10 : ℝ) ^ (1.5 : ℝ)))
        displaced := pyIntR (1000 * (0.01 + 0.1 * (10 : ℝ))) } := by
    rw [calculateCasualties]
    simp [casualtyRates, damageIntensity, c1Event]
  have hdisp : pyIntR (1000 * (0.01 + 0.1 * (10 : ℝ))) = 1010 := by
    rw [show (1000 : ℝ) * (0.01 + 0.1 * (10 : ℝ)) = ((1010 : ℤ) : ℝ) by norm_num]
    exact pyIntR_intCast 1010
  have hdeath : 0 ≤ pyIntR (1000 * (0.0001 + 0.001 * (10 : ℝ) ^ 2)) :=
    pyIntR_nonneg (by positivity)
  have hinj : 0 ≤ pyIntR (1000 * (0.001 + 0.005 * (10 : ℝ) ^ (1.5 : ℝ))) :=
    pyIntR_nonneg (by positivity)
  rw [hred]
  refine ⟨hdisp, ?_⟩
  rw [hdisp]
  push_cast
  have : (0 : ℝ) ≤ (pyIntR (1000 * (0.0001 + 0.001 * (10 : ℝ) ^ 2)) : ℝ) := by
    exact_mod_cast hdeath
  have : (0 : ℝ) ≤ (pyIntR (1000 * (0.001 + 0.005 * (10 : ℝ) ^ (1.5 : ℝ))) : ℝ) := by
    exact_mod_cast hinj
  linarith

/-- C1 (amended): each casualty count equals the truncation
`int(exposed_population * rate)` with no floor or cap applied; the bound
`deaths + injuries + displaced ≤ exposed population` therefore holds exactly
when the three hazard-specific rates are non-negative and sum to at most 1
(true for mild intensities, false e.g. for flood depths ≥ 9.9 m where the
displacement rate alone reaches 1). -/
theorem casualties_bounded_when_rates_bounded (pop : ℝ) (bs : List (BType × ℤ))
    (ev : HazardEventIn) (hpop : 0 ≤ pop)
    (h1 : 0 ≤ (casualtyRates ev (overallDamageRatio ev bs)).1)
    (h2 : 0 ≤ (casualtyRates ev (overallDamageRatio ev bs)).2.1)
    (h3 : 0 ≤ (casualtyRates ev (overallDamageRatio ev bs)).2.2)
    (hsum : (casualtyRates ev (overallDamageRatio ev bs)).1 +
      (casualtyRates ev (overallDamageRatio ev bs)).2.1 +
      (casualtyRates ev (overallDamageRatio ev bs)).2.2 ≤ 1) :
    (((calculateCasualties pop bs ev).deaths + (calculateCasualties pop bs ev).injuries +
      (calculateCasualties pop bs ev).displaced : ℤ) : ℝ) ≤ pop := by
  rw [calculateCasualties]
  split_ifs with hb
  · simp only
    have d1 : (pyIntR (pop * (casualtyRates ev (overallDamageRatio ev bs)).1) : ℝ) ≤
        pop * (casualtyRates ev (overallDamageRatio ev bs)).1 :=
      pyIntR_le (mul_nonneg hpop h1)
    have d2 : (pyIntR (pop * (casualtyRates ev (overallDamageRatio ev bs)).2.1) : ℝ) ≤
        pop * (casualtyRates ev (overallDamageRatio ev bs)).2.1 :=
      pyIntR_le (mul_nonneg hpop h2)
    have d3 : (pyIntR (pop * (casualtyRates ev (overallDamageRatio ev bs)).2.2) : ℝ) ≤
        pop * (casualtyRates ev (overallDamageRatio ev bs)).2.2 :=
      pyIntR_le (mul_nonneg hpop h3)
    have hmul := mul_le_mul_of_nonneg_left hsum hpop
    push_cast
    nlinarith
  · simp
    exact hpop

/-- C1 witness: the amended bound applied to a flood of depth 1 m, 1000
exposed people and 10 exposed kutcha buildings (rate sum 0.1171 ≤ 1). -/
theorem casualties_bounded_when_rates_bounded_witness :
    (((calculateCasualties 1000 [(BType.kutcha, 10)] c1MildEvent).deaths +
      (calculateCasualties 1000 [(BType.kutcha, 10)] c1MildEvent).injuries +
      (calculateCasualties 1000 [(BType.kutcha, 10)] c1MildEvent).displaced : ℤ) : ℝ) ≤
      1000 :=
  casualties_bounded_when_rates_bounded 1000 [(BType.kutcha, 10)] c1MildEvent
    (by norm_num)
    (by simp [casualtyRates, damageIntensity, c1MildEvent]; norm_num)
    (by simp [casualtyRates, damageIntensity, c1MildEvent, Real.one_rpow]; norm_num)
    (by simp [casualtyRates, damageIntensity, c1MildEvent]; norm_num)
    (by simp [casualtyRates, damageIntensity, c1MildEvent, Real.one_rpow]; norm_num)

/- ============================================================
   Recovery claims
   ============================================================ -/

theorem fundingLevelMultiplier_pos (l : FundingLevel) : 0 < fundingLevelMultiplier l := by
  cases l <;> norm_num [fundingLevelMultiplier]

theorem governanceMultiplier_pos (gq : GovernanceQuality) : 0 < governanceMultiplier gq := by
  rcases gq with ⟨c, p, k, e⟩
  cases c <;> cases p <;> cases k <;> cases e <;>
    norm_num [governanceMultiplier, coordinationFactor, planningFactor, corruptionFactor,
      engagementFactor]

set_option maxHeartbeats 1000000 in
theorem regionalMultiplier_pos (rt : Option String) : 0 < regionalMultiplier rt := by
  simp only [regionalMultiplier]
  split_ifs <;> norm_num

set_option maxHeartbeats 1000000 in
theorem seasonalFactor_pos (m : ℕ) : 0 < seasonalFactor m := by
  unfold seasonalFactor
  split_ifs <;> norm_num

set_option maxHeartbeats 1000000 in
theorem bbbImprovement_pos (fa : FundingAvailability) : 0 < bbbImprovement fa := by
  rcases fa with ⟨tf, p, l, t⟩
  cases p <;> cases l <;> cases t <;>
    norm_num [bbbImprovement, bbbPolicyFactor, bbbFundingFactor, bbbCapacityFactor]

/-- Every recovery shape function is monotone in the timestep for a positive
horizon. -/
theorem patternValue_mono (sec : Sector) {h : ℤ} (hh : 0 < h) {t t' : ℕ} (ht : t ≤ t') :
    patternValue sec t h ≤ patternValue sec t' h := by
  have hhr : (0 : ℝ) < (h : ℝ) := by exact_mod_cast hh
  have htr : (t : ℝ) ≤ (t' : ℝ) := by exact_mod_cast ht
  have hx : (t : ℝ) / (h : ℝ) ≤ (t' : ℝ) / (h : ℝ) := (div_le_div_iff_of_pos_right hhr).2 htr
  have hx0 : (0 : ℝ) ≤ (t : ℝ) / (h : ℝ) := by positivity
  cases sec with
  | housing => exact Real.sqrt_le_sqrt hx
  | infrastructure =>
    simp only [patternValue]
    apply one_div_le_one_div_of_le
    · positivity
    · have := Real.exp_le_exp.2 (by nlinarith :
        -10 * ((t' : ℝ) / (h : ℝ) - 0.5) ≤ -10 * ((t : ℝ) / (h : ℝ) - 0.5))
      linarith
  | livelihoods =>
    simp only [patternValue]
    apply one_div_le_one_div_of_le
    · positivity
    · have := Real.exp_le_exp.2 (by nlinarith :
        -10 * ((t' : ℝ) / (h : ℝ) - 0.5) ≤ -10 * ((t : ℝ) / (h : ℝ) - 0.5))
      linarith
  | social => exact pow_le_pow_left₀ hx0 hx 2

/-- The adjusted trajectory stays inside [0, 1]. -/
theorem adjustedValue_mem (sec : Sector) {h : ℤ} (hh : 0 < h) {m : ℚ} (hm : 0 ≤ m) :
    ∀ t, 0 ≤ adjustedValue sec h m t ∧ adjustedValue sec h m t ≤ 1 := by
  intro t
  induction t with
  | zero => simp [adjustedValue]
  | succ t ih =>
    have hinc : 0 ≤ patternValue sec (t + 1) h - patternValue sec t h :=
      sub_nonneg.2 (patternValue_mono sec hh (Nat.le_succ t))
    have hmult : (0 : ℝ) ≤ ((m * seasonalFactor ((t + 1) % 12 + 1) : ℚ) : ℝ) := by
      have := le_of_lt (seasonalFactor_pos ((t + 1) % 12 + 1))
      exact_mod_cast mul_nonneg hm this
    constructor
    · rw [adjustedValue]
      exact le_min (by norm_num) (by nlinarith [ih.1])
    · rw [adjustedValue]
      exact min_le_left _ _

/-- The adjusted trajectory is non-decreasing step by step. -/
theorem adjustedValue_mono (sec : Sector) {h : ℤ} (hh : 0 < h) {m : ℚ} (hm : 0 ≤ m) :
    ∀ t, adjustedValue sec h m t ≤ adjustedValue sec h m (t + 1) := by
  intro t
  have hmem := adjustedValue_mem sec hh hm t
  have hinc : 0 ≤ patternValue sec (t + 1) h - patternValue sec t h :=
    sub_nonneg.2 (patternValue_mono sec hh (Nat.le_succ t))
  have hmult : (0 : ℝ) ≤ ((m * seasonalFactor ((t + 1) % 12 + 1) : ℚ) : ℝ) := by
    have := le_of_lt (seasonalFactor_pos ((t + 1) % 12 + 1))
    exact_mod_cast mul_nonneg hm this
  calc adjustedValue sec h m t = min 1 (adjustedValue sec h m t) := (min_eq_right hmem.2).symm
  _ ≤ adjustedValue sec h m (t + 1) := by
      rw [adjustedValue]
      exact min_le_min le_rfl (by nlinarith)

theorem map_range_head (n : ℕ) (f : ℕ → ℝ) :
    ((List.range (n + 1)).map f).head? = some (f 0) := by
  rw [List.range_succ_eq_map]
  simp

theorem map_range_getLast (n : ℕ) (f : ℕ → ℝ) :
    ((List.range (n + 1)).map f).getLast? = some (f n) := by
  rw [List.range_succ, List.map_append]
  simp

theorem chain'_map_range (n : ℕ) (f : ℕ → ℝ) (hf : ∀ t, f t ≤ f (t + 1)) :
    List.Chain' (· ≤ ·) ((List.range (n + 1)).map f) := by
  rw [List.chain'_map]
  exact (List.chain'_range_succ _ n).2 fun m _ => hf m

/-- Shape properties of one sector's trajectory after the BBB
post-processing. -/
theorem sector_pipeline_props (sec : Sector) (h : ℤ) (m bbb : ℚ) (hm : 0 ≤ m)
    (hbbb : 0 < bbb) (tr : List ℝ)
    (hok : applyBBB bbb (generateSectorTrajectory sec h m) = Except.ok tr) :
    trajectoryOk tr h bbb := by
  have hbbbR0 : (0 : ℝ) ≤ ((1 + bbb : ℚ) : ℝ) := by
    have hq : (0 : ℚ) ≤ 1 + bbb := by linarith
    exact_mod_cast hq
  have hbbbR1 : (1 : ℝ) ≤ 1 + (bbb : ℝ) := by
    have hq : (0 : ℚ) ≤ bbb := le_of_lt hbbb
    have hr : (0 : ℝ) ≤ (bbb : ℝ) := by exact_mod_cast hq
    linarith
  rcases lt_trichotomy h 0 with hneg | hzero | hpos
  · rw [generateSectorTrajectory, if_neg (by omega : ¬ h = 0), if_pos hneg] at hok
    rw [applyBBB, if_pos hbbb] at hok
    simp at hok
  · subst hzero
    rw [generateSectorTrajectory, if_pos rfl] at hok
    rw [applyBBB, if_pos hbbb] at hok
    simp only [List.getLast?_singleton, List.map_cons, List.map_nil] at hok
    have hmin : min (1 : ℝ) (1 * ((1 + bbb : ℚ) : ℝ)) = 1 := by
      rw [one_mul]
      refine min_eq_left ?_
      push_cast
      linarith
    rw [hmin] at hok
    cases hok
    refine ⟨by simp, ?_, fun _ => rfl, fun hne => absurd rfl hne, ?_⟩
    · intro x hx
      simp at hx
      simp [hx]
    · intro l hl
      simp at hl
      rw [hl]
      linarith
  · rw [generateSectorTrajectory, if_neg (by omega : ¬ h = 0),
      if_neg (by omega : ¬ h < 0)] at hok
    rw [applyBBB, if_pos hbbb, map_range_getLast] at hok
    cases hok
    have hmem := fun t => adjustedValue_mem sec hpos hm t
    have hL0 : (0 : ℝ) ≤ adjustedValue sec h m h.toNat * ((1 + bbb : ℚ) : ℝ) :=
      mul_nonneg (hmem h.toNat).1 hbbbR0
    rw [List.map_map]
    refine ⟨?_, ?_, ?_, ?_, ?_⟩
    · refine chain'_map_range _ _ fun t => ?_
      exact min_le_min (adjustedValue_mono sec hpos hm t) le_rfl
    · intro x hx
      simp only [List.mem_map, List.mem_range, Function.comp] at hx
      obtain ⟨t, _, rfl⟩ := hx
      exact le_trans (min_le_left _ _) (hmem t).2
    · intro h0
      omega
    · intro _
      rw [map_range_head]
      have h0 : adjustedValue sec h m 0 = 0 := rfl
      simp only [Function.comp, h0]
      rw [min_eq_left hL0]
    · intro l hl
      rw [map_range_getLast] at hl
      simp only [Function.comp] at hl
      have : l ≤ 1 := by
        cases hl
        exact le_trans (min_le_left _ _) (hmem h.toNat).2
      linarith

theorem except_bind_ok {ε α β : Type} {x : Except ε α} {f : α → Except ε β} {b : β}
    (hbind : x >>= f = Except.ok b) : ∃ a, x = Except.ok a ∧ f a = Except.ok b := by
  cases x with
  | error e => exact Except.noConfusion hbind
  | ok a => exact ⟨a, rfl, hbind⟩

/-- C3 (amended): every sector trajectory that `simulate_recovery` returns is
non-decreasing, bounded by 1 (hence its last element is at most
`1 + bbb_improvement`), and starts at 0 — *except* that a sector whose
recovery horizon is zero gets the single-element trajectory `[1.0]`
(already fully recovered), whose first element is 1, not 0. -/
theorem recovery_trajectories_shape (i : DisasterImpacts) (g : GovernanceQuality)
    (f : FundingAvailability) (r : RecoveryResult)
    (hok : simulateRecovery i g f = Except.ok r) :
    trajectoryOk r.housing_traj r.housing_horizon r.bbb_improvement ∧
    trajectoryOk r.infrastructure_traj r.infrastructure_horizon r.bbb_improvement ∧
    trajectoryOk r.livelihoods_traj r.livelihoods_horizon r.bbb_improvement ∧
    trajectoryOk r.social_traj r.social_horizon r.bbb_improvement := by
  have hm : (0 : ℚ) ≤ fundingLevelMultiplier (fundingLevelOf r.funding_ratio) *
      governanceMultiplier g * regionalMultiplier i.region_type :=
    le_of_lt (mul_pos (mul_pos (fundingLevelMultiplier_pos _) (governanceMultiplier_pos g))
      (regionalMultiplier_pos _))
  rw [simulateRecovery] at hok
  obtain ⟨hH, h1, hok⟩ := except_bind_ok hok
  obtain ⟨iH, h2, hok⟩ := except_bind_ok hok
  obtain ⟨lH, h3, hok⟩ := except_bind_ok hok
  obtain ⟨ratio, h4, hok⟩ := except_bind_ok hok
  obtain ⟨ht, h5, hok⟩ := except_bind_ok hok
  obtain ⟨it, h6, hok⟩ := except_bind_ok hok
  obtain ⟨lt', h7, hok⟩ := except_bind_ok hok
  obtain ⟨st, h8, hok⟩ := except_bind_ok hok
  obtain rfl : ({ housing_traj := ht, infrastructure_traj := it
                  livelihoods_traj := lt', social_traj := st
                  housing_horizon := hH, infrastructure_horizon := iH
                  livelihoods_horizon := lH, social_horizon := socialHorizon i.casualties
                  funding_ratio := ratio, bbb_improvement := bbbImprovement f
                  total_funding_needs := fundingNeeds i
                  available_funding :=
                    f.total_funding.getD (fundingNeeds i * 0.7) } : RecoveryResult) = r :=
    Except.ok.inj hok
  have hmm : (0 : ℚ) ≤ fundingLevelMultiplier (fundingLevelOf ratio) *
      governanceMultiplier g * regionalMultiplier i.region_type := hm
  exact ⟨sector_pipeline_props _ _ _ _ hmm (bbbImprovement_pos f) _ h5,
    sector_pipeline_props _ _ _ _ hmm (bbbImprovement_pos f) _ h6,
    sector_pipeline_props _ _ _ _ hmm (bbbImprovement_pos f) _ h7,
    sector_pipeline_props _ _ _ _ hmm (bbbImprovement_pos f) _ h8⟩

theorem except_ok_bind {ε α β : Type} (a : α) (f : α → Except ε β) :
    (Except.ok a : Except ε α) >>= f = f a := rfl

/-- The zero-horizon trajectory `[1.0]` passes through the BBB step
unchanged. -/
theorem applyBBB_one : applyBBB (1 / 25) [(1 : ℝ)] = Except.ok [(1 : ℝ)] := by
  rw [applyBBB, if_pos (by norm_num : (0 : ℚ) < 1 / 25)]
  simp only [List.getLast?_singleton, List.map_cons, List.map_nil]
  have hmin : min (1 : ℝ) (1 * ((1 + 1 / 25 : ℚ) : ℝ)) = 1 := by
    rw [one_mul]
    refine min_eq_left ?_
    push_cast
    norm_num
  rw [hmin]

/-- Full evaluation of `simulate_recovery` on `c3Impacts` with default
governance quality and funding availability. -/
theorem recovery_c3_eval : simulateRecovery c3Impacts {} {} = Except.ok c3Result := by
  have h1 : housingHorizon c3Impacts.buildings = Except.ok 0 := rfl
  have h2 : infraHorizon c3Impacts.infrastructure = Except.ok 0 := rfl
  have h3 : livelihoodsHorizon c3Impacts.economic = Except.ok 0 := by
    show livelihoodsHorizon (some { direct_losses := 1, indirect_losses := -(24 / 25) }) =
      Except.ok 0
    simp only [livelihoodsHorizon]
    rw [if_pos (by norm_num : (1 : ℚ) + -(24 / 25) > 0)]
    rw [pydiv, if_neg (by norm_num :
      ¬ ((1 : ℚ) * 0.12 + -(24 / 25) * 0.08) / (1 + -(24 / 25)) = 0)]
    rw [except_ok_bind]
    have hfloor : pyIntQ ((1 : ℚ) / (((1 : ℚ) * 0.12 + -(24 / 25) * 0.08) /
        (1 + -(24 / 25)))) = 0 := by
      rw [show (1 : ℚ) / (((1 : ℚ) * 0.12 + -(24 / 25) * 0.08) / (1 + -(24 / 25))) = 25 / 27
        by norm_num]
      rw [pyIntQ, if_pos (by norm_num : (0 : ℚ) ≤ 25 / 27)]
      rw [Int.floor_eq_zero_iff.2 (by rw [Set.mem_Ico]; norm_num)]
    rw [hfloor]
    rw [show ((60 : ℤ) ⊓ 0) = 0 by decide]
    rfl
  have h4 : socialHorizon c3Impacts.casualties = 0 := rfl
  have hneeds : fundingNeeds c3Impacts = 51 / 50 := by
    norm_num [fundingNeeds, c3Impacts]
  have hbbb : bbbImprovement ({} : FundingAvailability) = 1 / 25 := by
    norm_num [bbbImprovement, bbbPolicyFactor, bbbFundingFactor, bbbCapacityFactor]
  have htraj : ∀ (sec : Sector) (m : ℚ), generateSectorTrajectory sec 0 m = [1] :=
    fun sec m => by rw [generateSectorTrajectory, if_pos rfl]
  rw [simulateRecovery, h1, except_ok_bind, h2, except_ok_bind, h3, except_ok_bind]
  simp only [h4, hneeds, hbbb, htraj]
  have havail : (({} : FundingAvailability).total_funding).getD ((51 : ℚ) / 50 * 0.7) =
      357 / 500 := by norm_num [Option.getD]
  rw [havail]
  rw [pydiv, if_neg (by norm_num : ¬ (51 / 50 : ℚ) = 0), except_ok_bind]
  rw [show ((357 : ℚ) / 500) / (51 / 50) = 7 / 10 by norm_num]
  rw [applyBBB_one, except_ok_bind, except_ok_bind, except_ok_bind, except_ok_bind]
  rfl

/-- C3 counterexample: on disaster impacts whose housing horizon is zero
(no building damage entries, positive funding needs), `simulate_recovery`
returns the housing trajectory `[1.0]`: its first element is 1, not 0, so the
claimed invariant fails for zero-horizon sectors. -/
theorem recovery_zero_horizon_first_element_cex :
    Except.map (fun r : RecoveryResult => r.housing_traj) (simulateRecovery c3Impacts {} {}) =
      Except.ok [(1 : ℝ)] ∧ (1 : ℝ) ≠ 0 := by
  refine ⟨?_, by norm_num⟩
  rw [recovery_c3_eval]
  rfl

/-- C3 witness: the amended trajectory shape instantiated on the concrete run
`recovery_c3_eval` (housing and livelihoods sectors). -/
theorem recovery_trajectories_shape_witness :
    trajectoryOk c3Result.housing_traj c3Result.housing_horizon c3Result.bbb_improvement ∧
    trajectoryOk c3Result.livelihoods_traj c3Result.livelihoods_horizon
      c3Result.bbb_improvement :=
  ⟨(recovery_trajectories_shape c3Impacts {} {} c3Result recovery_c3_eval).1,
   (recovery_trajectories_shape c3Impacts {} {} c3Result recovery_c3_eval).2.2.1⟩

theorem pydiv_bind_cases {β : Type} (a b : ℚ) (f : ℚ → Except PyError β)
    (hf : ∀ q, ∃ y, f q = Except.ok y) :
    (∃ y, (pydiv a b >>= f) = Except.ok y) ∨
      (pydiv a b >>= f) = Except.error PyError.zeroDivision := by
  rw [pydiv]
  split_ifs with hb
  · right
    rfl
  · obtain ⟨y, hy⟩ := hf (a / b)
    exact Or.inl ⟨y, by rw [except_ok_bind, hy]⟩

/-- The housing-horizon computation either succeeds or raises
`ZeroDivisionError` (never any other error). -/
theorem housingHorizon_cases (bs : List (String × ℚ)) :
    (∃ k, housingHorizon bs = Except.ok k) ∨
      housingHorizon bs = Except.error PyError.zeroDivision := by
  cases bs with
  | nil => exact Or.inl ⟨0, rfl⟩
  | cons b bt =>
    simp only [housingHorizon]
    split_ifs with ht
    · exact pydiv_bind_cases _ _ _ fun q => ⟨_, rfl⟩
    · exact Or.inl ⟨0, rfl⟩

theorem infraHorizon_cases (is' : List (String × ℚ)) :
    (∃ k, infraHorizon is' = Except.ok k) ∨
      infraHorizon is' = Except.error PyError.zeroDivision := by
  cases is' with
  | nil => exact Or.inl ⟨0, rfl⟩
  | cons b bt =>
    simp only [infraHorizon]
    split_ifs with ht
    · exact pydiv_bind_cases _ _ _ fun q => ⟨_, rfl⟩
    · exact Or.inl ⟨0, rfl⟩

theorem livelihoodsHorizon_cases (econ : Option EconomicIn) :
    (∃ k, livelihoodsHorizon econ = Except.ok k) ∨
      livelihoodsHorizon econ = Except.error PyError.zeroDivision := by
  cases econ with
  | none => exact Or.inl ⟨0, rfl⟩
  | some e =>
    simp only [livelihoodsHorizon]
    split_ifs with ht
    · exact pydiv_bind_cases _ _ _ fun q => ⟨_, rfl⟩
    · exact Or.inl ⟨0, rfl⟩

/-- C10: whenever the disaster-impact input carries zero direct and zero
indirect losses, the funding needs `1.5*direct + 0.5*indirect` are zero and
`simulate_recovery` raises an uncaught `ZeroDivisionError` at the funding
ratio — regardless of the governance input and of any explicitly supplied
funding availability; conversely, non-negative losses with a positive sum
make the funding needs positive, so the division is well-defined. -/
theorem recovery_division_by_zero (i : DisasterImpacts) (g : GovernanceQuality)
    (f : FundingAvailability) :
    ((i.economic.map (·.direct_losses)).getD 0 = 0 →
     (i.economic.map (·.indirect_losses)).getD 0 = 0 →
     simulateRecovery i g f = Except.error PyError.zeroDivision) ∧
    (0 ≤ (i.economic.map (·.direct_losses)).getD 0 →
     0 ≤ (i.economic.map (·.indirect_losses)).getD 0 →
     0 < (i.economic.map (·.direct_losses)).getD 0 +
       (i.economic.map (·.indirect_losses)).getD 0 →
     0 < fundingNeeds i ∧ ∀ a : ℚ, ∃ q, pydiv a (fundingNeeds i) = Except.ok q) := by
  constructor
  · intro hd hi
    have hneeds : fundingNeeds i = 0 := by
      simp only [fundingNeeds, hd, hi]
      ring
    rcases housingHorizon_cases i.buildings with ⟨k1, hk1⟩ | hk1
    · rcases infraHorizon_cases i.infrastructure with ⟨k2, hk2⟩ | hk2
      · rcases livelihoodsHorizon_cases i.economic with ⟨k3, hk3⟩ | hk3
        · rw [simulateRecovery, hk1, except_ok_bind, hk2, except_ok_bind, hk3,
            except_ok_bind]
          simp only [hneeds]
          rw [pydiv, if_pos rfl]
          rfl
        · rw [simulateRecovery, hk1, except_ok_bind, hk2, except_ok_bind, hk3]
          rfl
      · rw [simulateRecovery, hk1, except_ok_bind, hk2]
        rfl
    · rw [simulateRecovery, hk1]
      rfl
  · intro hd0 hi0 hpos
    have hfn : 0 < fundingNeeds i := by
      simp only [fundingNeeds]
      nlinarith
    exact ⟨hfn, fun a => ⟨a / fundingNeeds i, by rw [pydiv, if_neg (ne_of_gt hfn)]⟩⟩

/-- C10 witness: empty impacts (zero losses) raise `ZeroDivisionError` even
with default funding availability, while impacts with 100 units of direct
losses give positive funding needs. -/
theorem recovery_division_by_zero_witness :
    simulateRecovery {} {} {} = Except.error PyError.zeroDivision ∧
    0 < fundingNeeds c10PosImpacts :=
  ⟨(recovery_division_by_zero {} {} {}).1 rfl rfl,
   ((recovery_division_by_zero c10PosImpacts {} {}).2 (by norm_num [c10PosImpacts])
     (by norm_num [c10PosImpacts]) (by norm_num [c10PosImpacts])).1⟩

end BDSim
